import Mathlib

/-!
Verification of the EcoTrip Planner trip-emissions and alternative-route
recommendation engine.

The Python components under src/components are shallowly embedded here:

* floats are modelled as exact rationals;
* Python round(x, n) is modelled by round-half-to-even at n decimal digits;
* Python list.sort (a stable ascending sort) is modelled by a stable
  insertion sort;
* dictionaries that are built by repeated assignment are modelled as
  insertion-ordered association lists.
-/

/-! ## Rounding: Python round(x, n) over exact rationals -/

/-- Executable floor of a rational: the denominator is positive, so
integer E-division of the numerator by it is the floor. -/
def ratFloor (q : ℚ) : ℤ := q.num / (q.den : ℤ)

theorem ratFloor_eq_floor (q : ℚ) : ratFloor q = ⌊q⌋ :=
  Rat.floor_def.symm

/-- Round a rational to the nearest integer, ties to even
(the rounding mode of Python round). -/
def roundHalfEven (y : ℚ) : ℤ :=
  if y - (ratFloor y : ℚ) < 1/2 then ratFloor y
  else if 1/2 < y - (ratFloor y : ℚ) then ratFloor y + 1
  else if ratFloor y % 2 = 0 then ratFloor y else ratFloor y + 1

/-- Model of Python round(x, n): round at the n-th decimal digit,
ties to even. -/
def roundTo (n : ℕ) (x : ℚ) : ℚ :=
  (roundHalfEven (x * 10 ^ n) : ℚ) / 10 ^ n

theorem abs_roundHalfEven_sub (y : ℚ) : |(roundHalfEven y : ℚ) - y| ≤ 1/2 := by
  have h0 : (⌊y⌋ : ℚ) ≤ y := Int.floor_le y
  have h1 : y < (⌊y⌋ : ℚ) + 1 := Int.lt_floor_add_one y
  unfold roundHalfEven
  simp only [ratFloor_eq_floor]
  split_ifs with hr1 hr2 hev <;>
    (rw [abs_le]; constructor <;> (push_cast; linarith))

theorem le_roundHalfEven_of_intCast_le (m : ℤ) (y : ℚ) (h : (m : ℚ) ≤ y) :
    m ≤ roundHalfEven y := by
  have hf : m ≤ ⌊y⌋ := Int.le_floor.mpr h
  unfold roundHalfEven
  simp only [ratFloor_eq_floor]
  split_ifs <;> omega

theorem roundHalfEven_le_of_le_intCast (m : ℤ) (y : ℚ) (h : y ≤ (m : ℚ)) :
    roundHalfEven y ≤ m := by
  have hf : ⌊y⌋ ≤ m := by
    have := Int.floor_le_floor h
    simpa using this
  have h0 : (⌊y⌋ : ℚ) ≤ y := Int.floor_le y
  have hstep : ⌊y⌋ = m → y - (⌊y⌋ : ℚ) < 1/2 := by
    intro hem
    have hy : y ≤ (⌊y⌋ : ℚ) := by rw [hem]; exact_mod_cast h
    linarith
  unfold roundHalfEven
  simp only [ratFloor_eq_floor]
  split_ifs with hr1 hr2 hev
  · exact hf
  · rcases lt_or_eq_of_le hf with h' | h'
    · omega
    · exact absurd (hstep h') hr1
  · exact hf
  · rcases lt_or_eq_of_le hf with h' | h'
    · omega
    · exact absurd (hstep h') hr1

theorem roundHalfEven_intCast (m : ℤ) : roundHalfEven (m : ℚ) = m :=
  le_antisymm (roundHalfEven_le_of_le_intCast m _ le_rfl)
    (le_roundHalfEven_of_intCast_le m _ le_rfl)

theorem abs_roundTo_sub (n : ℕ) (x : ℚ) :
    |roundTo n x - x| ≤ 1 / (2 * 10 ^ n) := by
  have hpow : (0 : ℚ) < 10 ^ n := by positivity
  have habs := abs_roundHalfEven_sub (x * 10 ^ n)
  have hx : roundTo n x - x
      = ((roundHalfEven (x * 10 ^ n) : ℚ) - x * 10 ^ n) / 10 ^ n := by
    unfold roundTo
    field_simp
    ring
  rw [hx, abs_div, abs_of_pos hpow,
    div_le_div_iff hpow (by positivity : (0 : ℚ) < 2 * 10 ^ n)]
  nlinarith [mul_nonneg (sub_nonneg.mpr habs) (le_of_lt hpow)]

theorem roundTo_le_of_le (n : ℕ) (x : ℚ) (m : ℤ) (h : x ≤ (m : ℚ) / 10 ^ n) :
    roundTo n x ≤ (m : ℚ) / 10 ^ n := by
  have hpow : (0 : ℚ) < 10 ^ n := by positivity
  have h' : x * 10 ^ n ≤ (m : ℚ) := by
    rw [le_div_iff hpow] at h
    exact h
  have hr := roundHalfEven_le_of_le_intCast m _ h'
  unfold roundTo
  gcongr

theorem le_roundTo_of_le (n : ℕ) (x : ℚ) (m : ℤ) (h : (m : ℚ) / 10 ^ n ≤ x) :
    (m : ℚ) / 10 ^ n ≤ roundTo n x := by
  have hpow : (0 : ℚ) < 10 ^ n := by positivity
  have h' : (m : ℚ) ≤ x * 10 ^ n := by
    rw [div_le_iff hpow] at h
    exact h
  have hr := le_roundHalfEven_of_intCast_le m _ h'
  unfold roundTo
  gcongr

theorem roundTo_intCast (n : ℕ) (m : ℤ) : roundTo n (m : ℚ) = m := by
  unfold roundTo
  have hcast : (m : ℚ) * 10 ^ n = ((m * 10 ^ n : ℤ) : ℚ) := by push_cast; ring
  rw [hcast, roundHalfEven_intCast]
  have hpow : (0 : ℚ) < 10 ^ n := by positivity
  push_cast
  field_simp

/-! ## Stable ascending sort, the model of Python list.sort(key=...) -/

/-- Insert x after every already-present element whose key is ≤ key x.
Inserting the elements of a list left to right with this operation
reproduces the stable ascending sort of Python list.sort. -/
def sInsert {α : Type} (key : α → ℚ) (x : α) : List α → List α
  | [] => [x]
  | y :: ys => if key y ≤ key x then y :: sInsert key x ys else x :: y :: ys

/-- Stable ascending sort by a rational key. -/
def sSort {α : Type} (key : α → ℚ) (l : List α) : List α :=
  l.foldl (fun acc x => sInsert key x acc) []

theorem mem_sInsert {α : Type} (key : α → ℚ) (x z : α) :
    ∀ l : List α, z ∈ sInsert key x l ↔ z = x ∨ z ∈ l := by
  intro l
  induction l with
  | nil => simp [sInsert]
  | cons y ys ih =>
    by_cases hk : key y ≤ key x
    · simp only [sInsert, if_pos hk, List.mem_cons, ih]
      tauto
    · simp only [sInsert, if_neg hk, List.mem_cons]

theorem sInsert_pairwise {α : Type} (key : α → ℚ) (sec : α → ℕ) (x : α) :
    ∀ l : List α,
      l.Pairwise (fun a b => key a ≤ key b ∧ (key a = key b → sec a ≤ sec b)) →
      (∀ y ∈ l, sec y < sec x) →
      (sInsert key x l).Pairwise
        (fun a b => key a ≤ key b ∧ (key a = key b → sec a ≤ sec b)) := by
  intro l
  induction l with
  | nil =>
    intro _ _
    simp [sInsert]
  | cons y ys ih =>
    intro hp hsec
    rcases List.pairwise_cons.mp hp with ⟨hy, hys⟩
    by_cases hk : key y ≤ key x
    · rw [sInsert, if_pos hk]
      refine List.pairwise_cons.mpr ⟨?_, ?_⟩
      · intro z hz
        rcases (mem_sInsert key x z ys).mp hz with hzx | hzys
        · subst hzx
          refine ⟨hk, fun _ => ?_⟩
          exact le_of_lt (hsec y (List.mem_cons_self y ys))
        · exact hy z hzys
      · exact ih hys (fun z hz => hsec z (List.mem_cons_of_mem y hz))
    · rw [sInsert, if_neg hk]
      have hxy : key x < key y := lt_of_not_le hk
      refine List.pairwise_cons.mpr ⟨?_, hp⟩
      intro z hz
      rcases List.mem_cons.mp hz with hzy | hzys
      · subst hzy
        exact ⟨le_of_lt hxy, fun he => absurd he (ne_of_lt hxy)⟩
      · have hyz : key y ≤ key z := (hy z hzys).1
        have hxz : key x < key z := lt_of_lt_of_le hxy hyz
        exact ⟨le_of_lt hxz, fun he => absurd he (ne_of_lt hxz)⟩

theorem sSort_foldl_pairwise {α : Type} (key : α → ℚ) (sec : α → ℕ) :
    ∀ (l acc : List α),
      l.Pairwise (fun a b => sec a < sec b) →
      acc.Pairwise (fun a b => key a ≤ key b ∧ (key a = key b → sec a ≤ sec b)) →
      (∀ a ∈ acc, ∀ b ∈ l, sec a < sec b) →
      (l.foldl (fun acc x => sInsert key x acc) acc).Pairwise
        (fun a b => key a ≤ key b ∧ (key a = key b → sec a ≤ sec b)) := by
  intro l
  induction l with
  | nil =>
    intro acc _ hacc _
    simpa using hacc
  | cons x xs ih =>
    intro acc hl hacc hcross
    rcases List.pairwise_cons.mp hl with ⟨hx, hxs⟩
    rw [List.foldl_cons]
    apply ih _ hxs
    · exact sInsert_pairwise key sec x acc hacc
        (fun y hy => hcross y hy x (List.mem_cons_self x xs))
    · intro a ha b hb
      rcases (mem_sInsert key x a acc).mp ha with hax | haacc
      · subst hax
        exact hx b hb
      · exact hcross a haacc b (List.mem_cons_of_mem x hb)

/-- Sorting a list whose secondary index is strictly increasing yields a
list that is ascending in the key and, on key ties, ascending in the
original position: the sort is stable. -/
theorem sSort_pairwise {α : Type} (key : α → ℚ) (sec : α → ℕ) (l : List α)
    (h : l.Pairwise (fun a b => sec a < sec b)) :
    (sSort key l).Pairwise
      (fun a b => key a ≤ key b ∧ (key a = key b → sec a ≤ sec b)) := by
  unfold sSort
  apply sSort_foldl_pairwise key sec l [] h
  · simp
  · simp

/-! ## MLEmissionsPredictor (src/components/ml_emissions_model.py)

The pickled model file never exists in the repository, so the predictor
always takes the rule-based path; only that path is embedded. -/

/-- Base emission factors table: mode to (base, distance_factor),
from MLEmissionsPredictor.base_emission_factors. -/
def base_emission_factors : String → Option (ℚ × ℚ)
  | "Flight" => some (0.255, 0.0001)
  | "Train" => some (0.041, 0)
  | "Car" => some (0.171, -0.00005)
  | "Bus" => some (0.089, -0.00002)
  | "Hotel" => some (30.0, 0)
  | _ => none

/-- MLEmissionsPredictor.predict_emission_factor.  The num_travelers
argument is accepted but never used, exactly as in the source. -/
def predict_emission_factor (transport_mode : String) (distance_km : Option ℚ)
    (num_travelers : ℤ) (region : String) : ℚ :=
  match base_emission_factors transport_mode with
  | none => 0
  | some (base_factor, distance_factor) =>
    if transport_mode = "Hotel" then base_factor
    else
      match distance_km with
      | none => base_factor
      | some d =>
        if d ≤ 0 then base_factor
        else
          let adjusted := base_factor + distance_factor * min d 2000
          let adjusted :=
            if region = "IN" then
              if transport_mode = "Train" then adjusted * 0.95
              else if transport_mode = "Car" then adjusted * 1.05
              else adjusted
            else adjusted
          roundTo 4 (max 0.01 (min adjusted (base_factor * 1.5)))

/-- MLEmissionsPredictor.predict_total_emissions.  Both branches of the
source if are the same expression. -/
def predict_total_emissions (transport_mode : String) (distance_km : ℚ)
    (num_travelers : ℤ) (region : String) : ℚ :=
  predict_emission_factor transport_mode (some distance_km) num_travelers region
    * distance_km * num_travelers

/-- Hotel-type multipliers, hotel_multipliers.get(hotel_type, 1.0). -/
def hotel_multiplier (hotel_type : String) : ℚ :=
  if hotel_type = "budget" then 0.7
  else if hotel_type = "standard" then 1.0
  else if hotel_type = "luxury" then 1.5
  else 1.0

/-- MLEmissionsPredictor.predict_accommodation_emissions. -/
def predict_accommodation_emissions (nights : ℤ) (num_travelers : ℤ)
    (hotel_type : String) : ℚ :=
  30.0 * hotel_multiplier hotel_type * nights * num_travelers

/-! ## CarbonCalculator (src/components/carbon_calculator.py)

The mutable self._calculation_errors accumulator is modelled by
returning the accumulated error strings next to each value.  The
calculation timestamp is omitted (wall-clock time), and a warnings value
of None is modelled as the empty list. -/

/-- Trip request record (models.TripData).  Dates are day ordinals. -/
structure TripData where
  origin_city : String
  destination_city : String
  outbound_date : ℤ
  return_date : Option ℤ
  travel_modes : List String
  num_travelers : ℤ
  hotel_nights : ℤ
deriving DecidableEq

/-- Supported travel modes of the validation code. -/
def supported_modes : List String := ["Flight", "Train", "Car", "Bus"]

/-- TripData.validate. -/
def TripData.validate (t : TripData) : Bool :=
  if t.origin_city = "" ∨ t.destination_city = "" then false
  else if t.num_travelers < 1 then false
  else if t.hotel_nights < 0 then false
  else if ¬ (∀ m ∈ t.travel_modes, m ∈ supported_modes) then false
  else if t.travel_modes = [] ∧ t.hotel_nights ≤ 0 then false
  else if (match t.return_date with
           | some r => decide (r < t.outbound_date)
           | none => false) = true then false
  else true

/-- Validation messages accumulated by
CarbonCalculator.validate_calculation_inputs. -/
def validation_errors (t : TripData) (distance_km : ℚ) : List String :=
  (if t.validate = false then ["Trip data validation failed"] else [])
  ++ (if distance_km < 0 then ["Distance cannot be negative"]
      else if 50000 < distance_km then
        ["Distance appears unreasonably large (>50,000 km)"]
      else [])
  ++ (if t.travel_modes = [] ∧ t.hotel_nights ≤ 0 then
        ["At least one travel mode must be selected or hotel nights must be greater than 0"]
      else [])
  ++ (if t.travel_modes.filter (fun m => ¬ m ∈ supported_modes) ≠ [] then
        ["Unsupported travel modes: " ++ String.intercalate ", "
          (t.travel_modes.filter (fun m => ¬ m ∈ supported_modes))]
      else [])
  ++ (if t.num_travelers ≤ 0 then ["Number of travelers must be positive"]
      else if 100 < t.num_travelers then
        ["Number of travelers exceeds reasonable limit (100)"]
      else [])
  ++ (if t.hotel_nights < 0 then ["Hotel nights cannot be negative"]
      else if 365 < t.hotel_nights then
        ["Hotel nights exceeds reasonable limit (365)"]
      else [])

/-- CarbonCalculator.validate_calculation_inputs: true exactly when no
validation message is produced. -/
def validate_calculation_inputs (t : TripData) (distance_km : ℚ) : Bool :=
  validation_errors t distance_km = []

/-- Assignment d[k] = v on an insertion-ordered dictionary. -/
def dictInsert (l : List (String × ℚ)) (k : String) (v : ℚ) :
    List (String × ℚ) :=
  match l with
  | [] => [(k, v)]
  | (k0, v0) :: rest =>
    if k0 = k then (k0, v) :: rest else (k0, v0) :: dictInsert rest k v

/-- One iteration of the per-mode loop of
CarbonCalculator.calculate_transport_emissions. -/
def transport_step (distance_km : ℚ) (num_travelers : ℤ)
    (acc : List (String × ℚ) × List String) (mode : String) :
    List (String × ℚ) × List String :=
  let emission_factor :=
    predict_emission_factor mode (some distance_km) num_travelers "IN"
  if 0 < emission_factor then
    (dictInsert acc.1 mode
      (roundTo 3 (distance_km * emission_factor * num_travelers)), acc.2)
  else
    (acc.1, acc.2 ++ ["No emission factor available for " ++ mode])

/-- The per-mode loop of CarbonCalculator.calculate_transport_emissions:
returns the emissions dictionary and the per-mode error messages. -/
def transport_emissions_loop (t : TripData) (distance_km : ℚ) :
    List (String × ℚ) × List String :=
  t.travel_modes.foldl (transport_step distance_km t.num_travelers) ([], [])

/-- CarbonCalculator.calculate_transport_emissions.  A raised ValueError
is caught by the outer except, which appends the failure message and
returns the (empty) dictionary. -/
def calculate_transport_emissions (t : TripData) (distance_km : ℚ) :
    List (String × ℚ) × List String :=
  if validate_calculation_inputs t distance_km = false then
    ([], validation_errors t distance_km
      ++ ["Transport emissions calculation failed: Invalid calculation inputs provided"])
  else
    let p := transport_emissions_loop t distance_km
    if p.1 = [] ∧ p.2 ≠ [] then
      ([], p.2
        ++ ["Transport emissions calculation failed: Failed to calculate emissions for any transport mode: "
            ++ String.intercalate "; " p.2])
    else p

/-- CarbonCalculator.calculate_accommodation_emissions: value together
with the error messages recorded on the failure paths. -/
def calculate_accommodation_emissions (t : TripData) : ℚ × List String :=
  if t.hotel_nights ≤ 0 then (0, [])
  else if t.num_travelers ≤ 0 then
    (0, ["Accommodation emissions calculation failed: Number of travelers must be positive"])
  else if 365 < t.hotel_nights then
    (0, ["Accommodation emissions calculation failed: Hotel nights cannot exceed 365"])
  else
    let e := predict_accommodation_emissions t.hotel_nights t.num_travelers "standard"
    if 0 < e then (roundTo 3 e, [])
    else (0, ["Accommodation emissions calculation failed: No emission factor available for hotel accommodation"])

/-- Calculated carbon footprint (models.EmissionsResult); the wall-clock
calculation_timestamp is omitted and warnings of None become []. -/
structure EmissionsResult where
  total_co2e_kg : ℚ
  transport_emissions : List (String × ℚ)
  accommodation_emissions : ℚ
  per_person_emissions : ℚ
  calculation_warnings : List String
deriving DecidableEq

/-- CarbonCalculator.aggregate_total_emissions. -/
def aggregate_total_emissions (transport_emissions : List (String × ℚ))
    (accommodation_emissions : ℚ) (num_travelers : ℤ) : EmissionsResult :=
  let total_transport := (transport_emissions.map Prod.snd).sum
  let total_emissions := total_transport + accommodation_emissions
  let per_person_emissions := total_emissions / (max 1 num_travelers : ℤ)
  { total_co2e_kg := roundTo 3 total_emissions
    transport_emissions := transport_emissions
    accommodation_emissions := roundTo 3 accommodation_emissions
    per_person_emissions := roundTo 3 per_person_emissions
    calculation_warnings := [] }

/-- CarbonCalculator.calculate_total_emissions.  Any exception escaping
the body (in particular the ValueError raised when validation fails, or
when nothing could be calculated) is caught and converted into the
zero-valued EmissionsResult carrying the accumulated messages. -/
def calculate_total_emissions (t : TripData) (distance_km : ℚ) :
    EmissionsResult :=
  let verrs := validation_errors t distance_km
  if verrs ≠ [] then
    { total_co2e_kg := 0, transport_emissions := [],
      accommodation_emissions := 0, per_person_emissions := 0,
      calculation_warnings :=
        verrs ++ ["Emissions calculation failed: Invalid inputs for emissions calculation"] }
  else
    let tp := calculate_transport_emissions t distance_km
    let ap := calculate_accommodation_emissions t
    let errs := tp.2 ++ ap.2
    if tp.1 = [] ∧ ap.1 = 0 then
      { total_co2e_kg := 0, transport_emissions := [],
        accommodation_emissions := 0, per_person_emissions := 0,
        calculation_warnings :=
          errs ++ ["Emissions calculation failed: No valid emissions could be calculated"] }
    else
      { aggregate_total_emissions tp.1 ap.1 t.num_travelers with
        calculation_warnings := errs }

/-- CarbonCalculator.calculate_emissions_by_mode. -/
def calculate_emissions_by_mode (mode : String) (distance_km : ℚ)
    (num_travelers : ℤ) : ℚ :=
  roundTo 3 (predict_total_emissions mode distance_km num_travelers "IN")

/-! ## MLRoutePredictor (src/components/ml_route_predictor.py)

The predictor obtains the direct geodesic distance between the two city
names from GeographicDataManager.calculate_distance (0.0 for an unknown
city) and everything after that lookup is closed-form arithmetic.  The
embedding therefore takes that direct distance as the argument. -/

/-- mode_speeds.get(mode, 50.0). -/
def mode_speeds (mode : String) : ℚ :=
  if mode = "Flight" then 500.0
  else if mode = "Train" then 60.0
  else if mode = "Car" then 50.0
  else if mode = "Bus" then 45.0
  else 50.0

/-- mode_buffers.get(mode, 0.5). -/
def mode_buffers (mode : String) : ℚ :=
  if mode = "Flight" then 3.0
  else if mode = "Train" then 1.0
  else if mode = "Car" then 0.5
  else if mode = "Bus" then 1.0
  else 0.5

/-- route_efficiency.get(mode, 1.2). -/
def route_efficiency (mode : String) : ℚ :=
  if mode = "Flight" then 1.0
  else if mode = "Train" then 1.15
  else if mode = "Car" then 1.2
  else if mode = "Bus" then 1.25
  else 1.2

/-- MLRoutePredictor.predict_distance, as a function of the direct
geodesic distance between the two cities. -/
def predict_distance (direct_distance : ℚ) (mode : String) : ℚ :=
  if direct_distance ≤ 0 then 0.0
  else roundTo 2 (direct_distance * route_efficiency mode)

/-- MLRoutePredictor.predict_duration, as a function of the direct
geodesic distance between the two cities. -/
def predict_duration (direct_distance : ℚ) (mode : String) : ℚ :=
  let distance := predict_distance direct_distance mode
  if distance ≤ 0 then 0.0
  else roundTo 2 (max (distance / mode_speeds mode + mode_buffers mode) 0.5)

/-- One route prediction dictionary of predict_alternative_routes (the
constant bookkeeping fields origin/destination/is_predicted/
prediction_method are carried by the caller). -/
structure RoutePrediction where
  mode : String
  distance_km : ℚ
  duration_hours : ℚ
deriving DecidableEq

/-- MLRoutePredictor.predict_alternative_routes, as a function of the
direct geodesic distance; modes = none means the Python default
argument None, which is replaced by the full supported list. -/
def predict_alternative_routes (direct_distance : ℚ)
    (modes : Option (List String)) : List RoutePrediction :=
  let ms := modes.getD ["Flight", "Train", "Car", "Bus"]
  ms.filterMap (fun mode =>
    let distance := predict_distance direct_distance mode
    let duration := predict_duration direct_distance mode
    if 0 < distance then some ⟨mode, distance, duration⟩ else none)

/-! ## RouteAnalyzer and CostEstimator (src/components/route_analyzer.py) -/

/-- cost_factors.get(mode, 0.0): INR per km per person. -/
def cost_factors (mode : String) : ℚ :=
  if mode = "Flight" then 8.0
  else if mode = "Train" then 1.2
  else if mode = "Car" then 6.0
  else if mode = "Bus" then 2.5
  else 0.0

/-- base_costs.get(mode, 0.0): fixed costs regardless of distance. -/
def base_costs (mode : String) : ℚ :=
  if mode = "Flight" then 500.0
  else if mode = "Train" then 50.0
  else if mode = "Car" then 0.0
  else if mode = "Bus" then 25.0
  else 0.0

/-- RouteAnalyzer.estimate_costs. -/
def estimate_costs (mode : String) (distance_km : ℚ) (num_travelers : ℤ) : ℚ :=
  (base_costs mode + distance_km * cost_factors mode) * num_travelers

/-- One alternative dictionary of RouteAnalyzer.generate_alternatives;
of the route_details sub-dictionary only the data that varies
(start_address and end_address) is kept. -/
structure AlternativeRoute where
  transport_mode : String
  duration_hours : ℚ
  distance_km : ℚ
  co2e_emissions_kg : ℚ
  estimated_cost_inr : ℚ
  emissions_savings_kg : ℚ
  cost_difference_inr : ℚ
  start_address : String
  end_address : String
deriving DecidableEq

/-- RouteAnalyzer.generate_alternatives, as a function of the direct
geodesic distance between origin_city and destination_city.  Note that
the source never passes selected_modes on to the route predictor: the
parameter is accepted and ignored. -/
def generate_alternatives (origin_city destination_city : String)
    (direct_distance : ℚ) (selected_modes : List String)
    (baseline_emissions : ℚ) : List AlternativeRoute :=
  let predicted_routes := predict_alternative_routes direct_distance none
  if predicted_routes = [] then []
  else
    let alternatives := predicted_routes.filterMap (fun rp =>
      if rp.mode = "" then none
      else if rp.distance_km ≤ 0 then none
      else
        let emissions_kg := calculate_emissions_by_mode rp.mode rp.distance_km 1
        let estimated_cost := estimate_costs rp.mode rp.distance_km 1
        let emissions_savings := baseline_emissions - emissions_kg
        some { transport_mode := rp.mode
               duration_hours := roundTo 2 rp.duration_hours
               distance_km := roundTo 2 rp.distance_km
               co2e_emissions_kg := roundTo 3 emissions_kg
               estimated_cost_inr := roundTo 2 estimated_cost
               emissions_savings_kg := roundTo 3 emissions_savings
               cost_difference_inr := 0.0
               start_address := origin_city
               end_address := destination_city })
    sSort (fun a => a.co2e_emissions_kg) alternatives

/-- Detailed service-class cost table of CostEstimator. -/
def detailed_cost_factors (mode : String) : List (String × ℚ) :=
  if mode = "Flight" then
    [("economy", 6.0), ("business", 12.0), ("base_cost", 500.0)]
  else if mode = "Train" then
    [("sleeper", 0.8), ("ac_3tier", 1.2), ("ac_2tier", 1.8),
     ("ac_1tier", 2.5), ("base_cost", 50.0)]
  else if mode = "Car" then
    [("petrol", 5.5), ("diesel", 4.8), ("electric", 2.0), ("base_cost", 0.0)]
  else if mode = "Bus" then
    [("ordinary", 1.5), ("ac", 2.5), ("volvo", 3.5), ("base_cost", 25.0)]
  else []

/-- Service-class mapping of CostEstimator.estimate_detailed_costs. -/
def class_mapping (mode : String) : List (String × String) :=
  if mode = "Flight" then [("standard", "economy"), ("premium", "business")]
  else if mode = "Train" then
    [("standard", "ac_3tier"), ("premium", "ac_1tier"), ("budget", "sleeper")]
  else if mode = "Car" then
    [("standard", "petrol"), ("premium", "petrol"), ("budget", "diesel")]
  else if mode = "Bus" then
    [("standard", "ac"), ("premium", "volvo"), ("budget", "ordinary")]
  else []

/-- Dictionary lookup d.get(k) on an association list. -/
def lookupStr {β : Type} (l : List (String × β)) (k : String) : Option β :=
  (l.find? (fun p => p.1 == k)).map Prod.snd

/-- Cost breakdown returned by CostEstimator.estimate_detailed_costs. -/
structure CostBreakdown where
  total : ℚ
  per_person : ℚ
  base_cost : ℚ
  distance_cost : ℚ
deriving DecidableEq

/-- CostEstimator.estimate_detailed_costs.  When the service class is
unknown the dictionary default is the string "standard", which is not a
key of the per-mode cost table, so the source falls back to the first
per-km entry of the table. -/
def estimate_detailed_costs (mode : String) (distance_km : ℚ)
    (num_travelers : ℤ) (service_class : String) : CostBreakdown :=
  let mode_costs := detailed_cost_factors mode
  if mode_costs = [] then ⟨0, 0, 0, 0⟩
  else
    let cost_key := (lookupStr (class_mapping mode) service_class).getD "standard"
    let cost_per_km :=
      match lookupStr mode_costs cost_key with
      | some v => v
      | none =>
        ((mode_costs.find? (fun p => p.1 != "base_cost")).map Prod.snd).getD 0.0
    let base_cost := (lookupStr mode_costs "base_cost").getD 0.0
    let distance_cost := distance_km * cost_per_km
    let cost_per_person := base_cost + distance_cost
    let total_cost := cost_per_person * num_travelers
    { total := roundTo 2 total_cost
      per_person := roundTo 2 cost_per_person
      base_cost := roundTo 2 (base_cost * num_travelers)
      distance_cost := roundTo 2 (distance_cost * num_travelers) }

/-! ## RouteOptimizer (src/components/route_optimizer.py)

The dynamically computed intermediate-city fallback
(_calculate_intermediate_cities) runs geodesic geometry over the whole
catalog; it is abstracted as an oracle argument dyn, which the claims
below never exercise because their inputs hit the curated tables.
Display-only name/description strings of each route dictionary are
omitted. -/

/-- Predefined intermediate waypoints for popular routes. -/
def route_waypoints : List ((String × String) × List String) := [
  (("Chennai", "Coimbatore"), ["Vellore", "Salem", "Erode", "Tiruppur"]),
  (("Coimbatore", "Chennai"), ["Tiruppur", "Erode", "Salem", "Vellore"]),
  (("Bangalore", "Chennai"), ["Vellore", "Kanchipuram", "Tiruvallur"]),
  (("Chennai", "Bangalore"), ["Tiruvallur", "Kanchipuram", "Vellore"]),
  (("Delhi", "Mumbai"), ["Jaipur", "Ajmer", "Ahmedabad", "Vadodara"]),
  (("Mumbai", "Delhi"), ["Vadodara", "Ahmedabad", "Ajmer", "Jaipur"]),
  (("Chennai", "Madurai"), ["Vellore", "Salem", "Tiruchirappalli"]),
  (("Madurai", "Chennai"), ["Tiruchirappalli", "Salem", "Vellore"]),
  (("Salem", "Coimbatore"), ["Erode", "Tiruppur"]),
  (("Coimbatore", "Salem"), ["Tiruppur", "Erode"])]

/-- Predefined shortcut routes: per origin/destination pair, the
insertion-ordered dictionary shortcut-id to waypoint list. -/
def shortcut_routes : List ((String × String) × List (String × List String)) := [
  (("Chennai", "Coimbatore"),
    [("shortcut_via_salem", ["Salem"]),
     ("direct", []),
     ("scenic_via_vellore", ["Vellore", "Salem"])]),
  (("Coimbatore", "Chennai"),
    [("shortcut_via_salem", ["Salem"]),
     ("direct", []),
     ("scenic_via_vellore", ["Salem", "Vellore"])])]

/-- Lookup of an (origin, destination) key in one of the two tables. -/
def lookupPair {β : Type} (l : List ((String × String) × β))
    (o d : String) : Option β :=
  (l.find? (fun p => p.1.1 == o && p.1.2 == d)).map Prod.snd

/-- RouteOptimizer.find_intermediate_cities. -/
def find_intermediate_cities (origin destination : String)
    (max_waypoints : ℕ) (dyn : String → String → ℕ → List String) :
    List String :=
  match lookupPair route_waypoints origin destination with
  | some ws => ws.take max_waypoints
  | none =>
    match lookupPair route_waypoints destination origin with
    | some ws => (ws.take max_waypoints).reverse
    | none => dyn origin destination max_waypoints

/-- One alternate-route dictionary of
RouteOptimizer.generate_alternate_routes. -/
structure RouteVariant where
  route_id : String
  waypoints : List String
  is_direct : Bool
  is_shortcut : Bool
deriving DecidableEq

/-- route_priority.get(route_id, 10) of
RouteOptimizer.generate_alternate_routes. -/
def route_priority (route_id : String) : ℚ :=
  if route_id = "shortcut" then 1
  else if route_id = "direct" then 2
  else if route_id = "via_middle" then 3
  else if route_id = "via_first" then 4
  else if route_id = "via_last" then 5
  else if route_id = "via_all" then 6
  else 10

/-- Append a waypoint route unless some already-collected route has the
same waypoint list (the de-duplication checks of the source). -/
def dedupAppend (rs : List RouteVariant) (route_id : String)
    (wps : List String) : List RouteVariant :=
  if rs.any (fun r => r.waypoints == wps) then rs
  else rs ++ [{ route_id := route_id, waypoints := wps,
                is_direct := false, is_shortcut := false }]

/-- RouteOptimizer.generate_alternate_routes. -/
def generate_alternate_routes (origin destination : String)
    (num_routes : ℕ) (dyn : String → String → ℕ → List String) :
    List RouteVariant :=
  let direct : RouteVariant :=
    { route_id := "direct", waypoints := [],
      is_direct := true, is_shortcut := false }
  let routes0 := [direct]
  let routes1 :=
    match lookupPair shortcut_routes origin destination with
    | some shortcuts =>
      routes0 ++ shortcuts.filterMap (fun p =>
        if p.2 ≠ [] then
          some { route_id := p.1, waypoints := p.2,
                 is_direct := false, is_shortcut := true }
        else none)
    | none => routes0
  let ic := find_intermediate_cities origin destination 3 dyn
  let routes2 :=
    if ic = [] then routes1
    else
      let r1 :=
        if 1 ≤ ic.length then
          dedupAppend routes1 "via_middle" [ic.getD (ic.length / 2) ""]
        else routes1
      let r2 :=
        if 1 ≤ ic.length then dedupAppend r1 "via_first" [ic.headD ""]
        else r1
      let r3 :=
        if 2 ≤ ic.length then dedupAppend r2 "via_last" [ic.getLastD ""]
        else r2
      let r4 := if 2 ≤ ic.length then dedupAppend r3 "via_all" ic else r3
      r4
  (sSort (fun r => route_priority r.route_id) routes2).take num_routes
/-- Curated in-code city table of GeographicDataManager.__init__:
(name, state, latitude, longitude); the popular_destinations field is
always the empty list and is omitted. -/
def curated_indian_cities : List (String × String × ℚ × ℚ) := [
  ("Visakhapatnam", "Andhra Pradesh", 17.6869, 83.2185),
  ("Vijayawada", "Andhra Pradesh", 16.5062, 80.6480),
  ("Guntur", "Andhra Pradesh", 16.3067, 80.4365),
  ("Nellore", "Andhra Pradesh", 14.4426, 79.9865),
  ("Kurnool", "Andhra Pradesh", 15.8281, 78.0373),
  ("Tirupati", "Andhra Pradesh", 13.6288, 79.4192),
  ("Kakinada", "Andhra Pradesh", 16.9891, 82.2475),
  ("Rajahmundry", "Andhra Pradesh", 17.0005, 81.8040),
  ("Itanagar", "Arunachal Pradesh", 27.0844, 93.6053),
  ("Naharlagun", "Arunachal Pradesh", 27.1048, 93.6989),
  ("Guwahati", "Assam", 26.1445, 91.7362),
  ("Silchar", "Assam", 24.8333, 92.7789),
  ("Dibrugarh", "Assam", 27.4728, 94.9120),
  ("Jorhat", "Assam", 26.7509, 94.2037),
  ("Tezpur", "Assam", 26.6338, 92.8000),
  ("Patna", "Bihar", 25.5941, 85.1376),
  ("Gaya", "Bihar", 24.7955, 85.0002),
  ("Bhagalpur", "Bihar", 25.2425, 86.9842),
  ("Muzaffarpur", "Bihar", 26.1225, 85.3906),
  ("Darbhanga", "Bihar", 26.1542, 85.8918),
  ("Purnia", "Bihar", 25.7771, 87.4753),
  ("Raipur", "Chhattisgarh", 21.2514, 81.6296),
  ("Bhilai", "Chhattisgarh", 21.2095, 81.3784),
  ("Bilaspur", "Chhattisgarh", 22.0797, 82.1409),
  ("Korba", "Chhattisgarh", 22.3595, 82.7501),
  ("Durg", "Chhattisgarh", 21.1905, 81.2849),
  ("Panaji", "Goa", 15.4909, 73.8278),
  ("Margao", "Goa", 15.2832, 73.9667),
  ("Vasco da Gama", "Goa", 15.3989, 73.8151),
  ("Goa", "Goa", 15.2993, 74.1240),
  ("Ahmedabad", "Gujarat", 23.0225, 72.5714),
  ("Surat", "Gujarat", 21.1702, 72.8311),
  ("Vadodara", "Gujarat", 22.3072, 73.1812),
  ("Rajkot", "Gujarat", 22.3039, 70.8022),
  ("Bhavnagar", "Gujarat", 21.7645, 72.1519),
  ("Jamnagar", "Gujarat", 22.4707, 70.0577),
  ("Gandhinagar", "Gujarat", 23.2156, 72.6369),
  ("Anand", "Gujarat", 22.5645, 72.9289),
  ("Faridabad", "Haryana", 28.4089, 77.3178),
  ("Gurgaon", "Haryana", 28.4595, 77.0266),
  ("Gurugram", "Haryana", 28.4595, 77.0266),
  ("Panipat", "Haryana", 29.3909, 76.9635),
  ("Ambala", "Haryana", 30.3782, 76.7767),
  ("Karnal", "Haryana", 29.6857, 76.9905),
  ("Hisar", "Haryana", 29.1492, 75.7217),
  ("Shimla", "Himachal Pradesh", 31.1048, 77.1734),
  ("Manali", "Himachal Pradesh", 32.2396, 77.1887),
  ("Dharamshala", "Himachal Pradesh", 32.2190, 76.3234),
  ("Kullu", "Himachal Pradesh", 31.9578, 77.1093),
  ("Solan", "Himachal Pradesh", 30.9045, 77.0967),
  ("Ranchi", "Jharkhand", 23.3441, 85.3096),
  ("Jamshedpur", "Jharkhand", 22.8046, 86.2029),
  ("Dhanbad", "Jharkhand", 23.7957, 86.4304),
  ("Bokaro", "Jharkhand", 23.6693, 86.1511),
  ("Hazaribagh", "Jharkhand", 23.9929, 85.3615),
  ("Bangalore", "Karnataka", 12.9716, 77.5946),
  ("Bengaluru", "Karnataka", 12.9716, 77.5946),
  ("Mysore", "Karnataka", 12.2958, 76.6394),
  ("Mysuru", "Karnataka", 12.2958, 76.6394),
  ("Hubli", "Karnataka", 15.3647, 75.1240),
  ("Mangalore", "Karnataka", 12.9141, 74.8560),
  ("Belgaum", "Karnataka", 15.8497, 74.4977),
  ("Gulbarga", "Karnataka", 17.3297, 76.8343),
  ("Davangere", "Karnataka", 14.4644, 75.9218),
  ("Bellary", "Karnataka", 15.1394, 76.9214),
  ("Thiruvananthapuram", "Kerala", 8.5241, 76.9366),
  ("Kochi", "Kerala", 9.9312, 76.2673),
  ("Kozhikode", "Kerala", 11.2588, 75.7804),
  ("Thrissur", "Kerala", 10.5276, 76.2144),
  ("Kollam", "Kerala", 8.8932, 76.6141),
  ("Kannur", "Kerala", 11.8745, 75.3704),
  ("Alappuzha", "Kerala", 9.4981, 76.3388),
  ("Palakkad", "Kerala", 10.7867, 76.6548),
  ("Indore", "Madhya Pradesh", 22.7196, 75.8577),
  ("Bhopal", "Madhya Pradesh", 23.2599, 77.4126),
  ("Jabalpur", "Madhya Pradesh", 23.1815, 79.9864),
  ("Gwalior", "Madhya Pradesh", 26.2183, 78.1828),
  ("Ujjain", "Madhya Pradesh", 23.1765, 75.7885),
  ("Sagar", "Madhya Pradesh", 23.8388, 78.7378),
  ("Dewas", "Madhya Pradesh", 22.9676, 76.0534),
  ("Mumbai", "Maharashtra", 19.0760, 72.8777),
  ("Pune", "Maharashtra", 18.5204, 73.8567),
  ("Nagpur", "Maharashtra", 21.1458, 79.0882),
  ("Thane", "Maharashtra", 19.2183, 72.9781),
  ("Nashik", "Maharashtra", 19.9975, 73.7898),
  ("Aurangabad", "Maharashtra", 19.8762, 75.3433),
  ("Solapur", "Maharashtra", 17.6599, 75.9064),
  ("Kolhapur", "Maharashtra", 16.7050, 74.2433),
  ("Amravati", "Maharashtra", 20.9374, 77.7796),
  ("Navi Mumbai", "Maharashtra", 19.0330, 73.0297),
  ("Imphal", "Manipur", 24.8170, 93.9368),
  ("Shillong", "Meghalaya", 25.5788, 91.8933),
  ("Aizawl", "Mizoram", 23.7271, 92.7176),
  ("Kohima", "Nagaland", 25.6747, 94.1086),
  ("Dimapur", "Nagaland", 25.9040, 93.7265),
  ("Bhubaneswar", "Odisha", 20.2961, 85.8245),
  ("Cuttack", "Odisha", 20.4625, 85.8830),
  ("Rourkela", "Odisha", 22.2604, 84.8536),
  ("Puri", "Odisha", 19.8135, 85.8312),
  ("Berhampur", "Odisha", 19.3150, 84.7941),
  ("Ludhiana", "Punjab", 30.9010, 75.8573),
  ("Amritsar", "Punjab", 31.6340, 74.8723),
  ("Jalandhar", "Punjab", 31.3260, 75.5762),
  ("Patiala", "Punjab", 30.3398, 76.3869),
  ("Bathinda", "Punjab", 30.2110, 74.9455),
  ("Chandigarh", "Punjab", 30.7333, 76.7794),
  ("Jaipur", "Rajasthan", 26.9124, 75.7873),
  ("Jodhpur", "Rajasthan", 26.2389, 73.0243),
  ("Udaipur", "Rajasthan", 24.5854, 73.7125),
  ("Kota", "Rajasthan", 25.2138, 75.8648),
  ("Bikaner", "Rajasthan", 28.0229, 73.3119),
  ("Ajmer", "Rajasthan", 26.4499, 74.6399),
  ("Alwar", "Rajasthan", 27.5530, 76.6346),
  ("Bharatpur", "Rajasthan", 27.2152, 77.4909),
  ("Gangtok", "Sikkim", 27.3389, 88.6065),
  ("Chennai", "Tamil Nadu", 13.0827, 80.2707),
  ("Coimbatore", "Tamil Nadu", 11.0168, 76.9558),
  ("Madurai", "Tamil Nadu", 9.9252, 78.1198),
  ("Tiruchirappalli", "Tamil Nadu", 10.7905, 78.7047),
  ("Trichy", "Tamil Nadu", 10.7905, 78.7047),
  ("Salem", "Tamil Nadu", 11.6643, 78.1460),
  ("Tirunelveli", "Tamil Nadu", 8.7139, 77.7567),
  ("Erode", "Tamil Nadu", 11.3410, 77.7172),
  ("Vellore", "Tamil Nadu", 12.9165, 79.1325),
  ("Thoothukudi", "Tamil Nadu", 8.7642, 78.1348),
  ("Thanjavur", "Tamil Nadu", 10.7870, 79.1378),
  ("Nagercoil", "Tamil Nadu", 8.1790, 77.4337),
  ("Kanchipuram", "Tamil Nadu", 12.8342, 79.7036),
  ("Pondicherry", "Tamil Nadu", 11.9416, 79.8083),
  ("Hyderabad", "Telangana", 17.3850, 78.4867),
  ("Warangal", "Telangana", 17.9689, 79.5941),
  ("Nizamabad", "Telangana", 18.6725, 78.0941),
  ("Khammam", "Telangana", 17.2473, 80.1514),
  ("Karimnagar", "Telangana", 18.4386, 79.1288),
  ("Agartala", "Tripura", 23.8315, 91.2868),
  ("Lucknow", "Uttar Pradesh", 26.8467, 80.9462),
  ("Kanpur", "Uttar Pradesh", 26.4499, 80.3319),
  ("Agra", "Uttar Pradesh", 27.1767, 78.0081),
  ("Varanasi", "Uttar Pradesh", 25.3176, 82.9739),
  ("Meerut", "Uttar Pradesh", 28.9845, 77.7064),
  ("Allahabad", "Uttar Pradesh", 25.4358, 81.8463),
  ("Prayagraj", "Uttar Pradesh", 25.4358, 81.8463),
  ("Bareilly", "Uttar Pradesh", 28.3670, 79.4304),
  ("Aligarh", "Uttar Pradesh", 27.8974, 78.0880),
  ("Moradabad", "Uttar Pradesh", 28.8389, 78.7378),
  ("Ghaziabad", "Uttar Pradesh", 28.6692, 77.4538),
  ("Noida", "Uttar Pradesh", 28.5355, 77.3910),
  ("Mathura", "Uttar Pradesh", 27.4924, 77.6737),
  ("Gorakhpur", "Uttar Pradesh", 26.7606, 83.3732),
  ("Dehradun", "Uttarakhand", 30.3165, 78.0322),
  ("Haridwar", "Uttarakhand", 29.9457, 78.1642),
  ("Rishikesh", "Uttarakhand", 30.0869, 78.2676),
  ("Nainital", "Uttarakhand", 29.3803, 79.4636),
  ("Roorkee", "Uttarakhand", 29.8543, 77.8880),
  ("Kolkata", "West Bengal", 22.5726, 88.3639),
  ("Howrah", "West Bengal", 22.5958, 88.2636),
  ("Durgapur", "West Bengal", 23.5204, 87.3119),
  ("Asansol", "West Bengal", 23.6739, 86.9524),
  ("Siliguri", "West Bengal", 26.7271, 88.3953),
  ("Darjeeling", "West Bengal", 27.0410, 88.2663),
  ("Delhi", "Delhi", 28.7041, 77.1025),
  ("New Delhi", "Delhi", 28.6139, 77.2090),
  ("Puducherry", "Puducherry", 11.9416, 79.8083),
  ("Port Blair", "Andaman and Nicobar Islands", 11.6234, 92.7265),
  ("Leh", "Ladakh", 34.1526, 77.5771),
  ("Srinagar", "Jammu and Kashmir", 34.0837, 74.7973),
  ("Jammu", "Jammu and Kashmir", 32.7266, 74.8570),
  ("Daman", "Dadra and Nagar Haveli and Daman and Diu", 20.4283, 72.8397),
  ("Silvassa", "Dadra and Nagar Haveli and Daman and Diu", 20.2737, 73.0135)]

/-! ## GeographicDataManager (src/components/geographic_data.py) -/

/-- One row of the optional supplementary CSV file, as the csv module
hands it to the loader (all fields raw strings). -/
structure CsvRow where
  city : String
  state : String
  latitude : String
  longitude : String

/-- State of a GeographicDataManager instance.  The popular_routes
attribute is an Option because the source only ever assigns it at the
very end of _load_additional_cities_from_csv: none models the absent
attribute (reading it raises AttributeError). -/
structure GeoManagerState where
  indian_cities : List (String × String × ℚ × ℚ)
  popular_routes : Option (List (String × String))

/-- Popular route pairs assigned at the end of
_load_additional_cities_from_csv. -/
def popular_routes_list : List (String × String) := [
  ("Salem", "Chennai"),
  ("Delhi", "Mumbai"),
  ("Bangalore", "Chennai"),
  ("Delhi", "Goa"),
  ("Mumbai", "Pune"),
  ("Chennai", "Kochi"),
  ("Delhi", "Jaipur"),
  ("Mumbai", "Goa"),
  ("Bangalore", "Hyderabad"),
  ("Kolkata", "Delhi")]

/-- GeographicDataManager._load_additional_cities_from_csv.  The csv
argument is none when data/indian_cities.csv does not exist or reading
it raises (both cases return early); parseFloat abstracts Python
float().  Only when the file is present and readable does control reach
the trailing popular_routes assignment. -/
def load_additional_cities_from_csv (csv : Option (List CsvRow))
    (parseFloat : String → Option ℚ) (s : GeoManagerState) :
    GeoManagerState :=
  match csv with
  | none => s
  | some rows =>
    let cities := rows.foldl
      (fun acc row =>
        let city := row.city.trim
        let state := row.state.trim
        let lat_str := row.latitude.trim
        let lon_str := row.longitude.trim
        if city = "" ∨ state = "" ∨ lat_str = "" ∨ lon_str = "" then acc
        else
          match parseFloat lat_str, parseFloat lon_str with
          | some lat, some lon =>
            if (acc.find? (fun c => c.1 == city)).isSome then acc
            else acc ++ [(city, state, lat, lon)]
          | _, _ => acc)
      s.indian_cities
    { indian_cities := cities, popular_routes := some popular_routes_list }

/-- GeographicDataManager.__init__: build the curated table, then run
the CSV loader. -/
def mk_geo_manager (csv : Option (List CsvRow))
    (parseFloat : String → Option ℚ) : GeoManagerState :=
  load_additional_cities_from_csv csv parseFloat
    { indian_cities := curated_indian_cities, popular_routes := none }

/-- GeographicDataManager.get_popular_routes; none models the
AttributeError raised when the attribute was never assigned. -/
def get_popular_routes (s : GeoManagerState) :
    Option (List (String × String)) :=
  s.popular_routes

/-! ## Geodesic distance (models.GeographicLocation.calculate_distance_to)

Modelled from the spec: the distance call goes to the third-party
geopy.distance.geodesic, whose code is not part of this repository; the
spec (sections 4.1 and the glossary) describes it as the standard
great-circle distance between two latitude/longitude pairs, embedded
here as the haversine formula on a sphere of radius 6371 km over exact
real arithmetic. -/

/-- Geographic location record (models.GeographicLocation); the
popular_destinations display list is omitted. -/
structure GeographicLocation where
  city_name : String
  state : String
  latitude : ℚ
  longitude : ℚ

/-- Degrees to radians. -/
noncomputable def degToRad (x : ℝ) : ℝ := x * Real.pi / 180

/-- Great-circle distance in kilometres between two latitude/longitude
pairs given in degrees (haversine form). -/
noncomputable def greatCircleKm (lat1 lon1 lat2 lon2 : ℝ) : ℝ :=
  let dphi := degToRad lat2 - degToRad lat1
  let dlam := degToRad lon2 - degToRad lon1
  let a := Real.sin (dphi / 2) ^ 2
    + Real.cos (degToRad lat1) * Real.cos (degToRad lat2)
      * Real.sin (dlam / 2) ^ 2
  2 * 6371 * Real.arcsin (Real.sqrt a)

/-- GeographicLocation.calculate_distance_to. -/
noncomputable def GeographicLocation.calculate_distance_to
    (A B : GeographicLocation) : ℝ :=
  greatCircleKm A.latitude A.longitude B.latitude B.longitude

/-! ## Claim theorems -/

set_option maxRecDepth 40000

theorem greatCircleKm_symm (lat1 lon1 lat2 lon2 : ℝ) :
    greatCircleKm lat1 lon1 lat2 lon2 = greatCircleKm lat2 lon2 lat1 lon1 := by
  show 2 * 6371 * Real.arcsin (Real.sqrt
      (Real.sin ((degToRad lat2 - degToRad lat1) / 2) ^ 2
        + Real.cos (degToRad lat1) * Real.cos (degToRad lat2)
          * Real.sin ((degToRad lon2 - degToRad lon1) / 2) ^ 2))
    = 2 * 6371 * Real.arcsin (Real.sqrt
      (Real.sin ((degToRad lat1 - degToRad lat2) / 2) ^ 2
        + Real.cos (degToRad lat2) * Real.cos (degToRad lat1)
          * Real.sin ((degToRad lon1 - degToRad lon2) / 2) ^ 2))
  have key : ∀ x y : ℝ, Real.sin ((x - y) / 2) ^ 2 = Real.sin ((y - x) / 2) ^ 2 := by
    intro x y
    have h : (x - y) / 2 = -((y - x) / 2) := by ring
    rw [h, Real.sin_neg, neg_sq]
  rw [key (degToRad lat2) (degToRad lat1), key (degToRad lon2) (degToRad lon1),
    mul_comm (Real.cos (degToRad lat1)) (Real.cos (degToRad lat2))]

theorem greatCircleKm_self (lat lon : ℝ) : greatCircleKm lat lon lat lon = 0 := by
  show 2 * 6371 * Real.arcsin (Real.sqrt
      (Real.sin ((degToRad lat - degToRad lat) / 2) ^ 2
        + Real.cos (degToRad lat) * Real.cos (degToRad lat)
          * Real.sin ((degToRad lon - degToRad lon) / 2) ^ 2)) = 0
  simp

/-- C8: for all locations A and B the geodesic distance is symmetric
(exact equality, which is stronger than the claimed 0.001 km tolerance)
and the distance from a location to itself is exactly 0. -/
theorem calculate_distance_to_symm_self (A B : GeographicLocation) :
    A.calculate_distance_to B = B.calculate_distance_to A ∧
    A.calculate_distance_to A = 0 :=
  ⟨greatCircleKm_symm A.latitude A.longitude B.latitude B.longitude,
   greatCircleKm_self A.latitude A.longitude⟩

/-- C9: when the supplementary CSV dataset is absent (or its load
fails), the popular_routes attribute is never assigned, so
get_popular_routes hits a missing attribute (modelled as none); only
when the CSV loads does it return the list of popular route pairs. -/
theorem get_popular_routes_requires_csv (parseFloat : String → Option ℚ)
    (rows : List CsvRow) :
    get_popular_routes (mk_geo_manager none parseFloat) = none ∧
    get_popular_routes (mk_geo_manager (some rows) parseFloat)
      = some popular_routes_list :=
  ⟨rfl, rfl⟩

/-- C10: generate_alternatives never forwards selected_modes to the
route predictor (which then defaults to the full supported mode list),
so its output is identical for any two values of that argument. -/
theorem generate_alternatives_ignores_selected_modes
    (origin_city destination_city : String) (direct_distance baseline : ℚ)
    (m1 m2 : List String) :
    generate_alternatives origin_city destination_city direct_distance m1 baseline
      = generate_alternatives origin_city destination_city direct_distance m2 baseline :=
  rfl

/-- C5: evaluation at the failing input Chennai-Coimbatore with
num_routes = 3.  The route_priority table keys the literal "shortcut",
but curated shortcut routes carry ids shortcut_via_salem and
scenic_via_vellore, so they receive the default priority 10, sort after
every other variant and are truncated away - the direct variant comes
first and no shortcut survives, contradicting the documented intent
(the source comment says shortcuts sort first). -/
theorem generate_alternate_routes_drops_shortcuts
    (dyn : String → String → ℕ → List String) :
    generate_alternate_routes "Chennai" "Coimbatore" 3 dyn =
      [{ route_id := "direct", waypoints := [],
         is_direct := true, is_shortcut := false },
       { route_id := "via_first", waypoints := ["Vellore"],
         is_direct := false, is_shortcut := false },
       { route_id := "via_last", waypoints := ["Erode"],
         is_direct := false, is_shortcut := false }] := by
  with_unfolding_all rfl

/-- C7 counterexample: for Train, an unknown service class does not
fall back to the standard class: at distance 100 for one traveler it
bills the sleeper rate (total 130 INR) while standard bills the
ac_3tier rate (total 170 INR). -/
theorem estimate_detailed_costs_unknown_ne_standard :
    estimate_detailed_costs "Train" 100 1 "unknown_class"
      ≠ estimate_detailed_costs "Train" 100 1 "standard" := by
  with_unfolding_all decide

/-- C7 as amended: an unknown service class falls back to the first
per-km rate listed for the mode, which coincides with standard for
Flight (economy) and Car (petrol) but is the budget rate for Train
(sleeper) and Bus (ordinary). -/
theorem estimate_detailed_costs_unknown_class (distance_km : ℚ)
    (num_travelers : ℤ) (c : String) (h1 : c ≠ "standard")
    (h2 : c ≠ "premium") (h3 : c ≠ "budget") :
    estimate_detailed_costs "Flight" distance_km num_travelers c
      = estimate_detailed_costs "Flight" distance_km num_travelers "standard" ∧
    estimate_detailed_costs "Car" distance_km num_travelers c
      = estimate_detailed_costs "Car" distance_km num_travelers "standard" ∧
    estimate_detailed_costs "Train" distance_km num_travelers c
      = estimate_detailed_costs "Train" distance_km num_travelers "budget" ∧
    estimate_detailed_costs "Bus" distance_km num_travelers c
      = estimate_detailed_costs "Bus" distance_km num_travelers "budget" := by
  have b1 : ("standard" == c) = false := by
    simp [beq_iff_eq]
    exact fun h => h1 h.symm
  have b2 : ("premium" == c) = false := by
    simp [beq_iff_eq]
    exact fun h => h2 h.symm
  have b3 : ("budget" == c) = false := by
    simp [beq_iff_eq]
    exact fun h => h3 h.symm
  refine ⟨?_, ?_, ?_, ?_⟩ <;>
    simp [estimate_detailed_costs, class_mapping, detailed_cost_factors,
      lookupStr, List.find?, b1, b2, b3]

theorem estimate_detailed_costs_unknown_class_witness :
    estimate_detailed_costs "Train" 10 2 "other"
      = estimate_detailed_costs "Train" 10 2 "budget" :=
  (estimate_detailed_costs_unknown_class 10 2 "other" (by decide) (by decide)
    (by decide)).2.2.1

/-- Spec formulation (section 4.2): per-mode base factor. -/
def spec_base (mode : String) : ℚ := ((base_emission_factors mode).getD (0, 0)).1

/-- Spec formulation (section 4.2): per-mode distance sensitivity. -/
def spec_sens (mode : String) : ℚ := ((base_emission_factors mode).getD (0, 0)).2

/-- Spec formulation (section 4.2): region multiplier applied for the
default region IN. -/
def spec_region_adjust (mode : String) : ℚ :=
  if mode = "Train" then 0.95 else if mode = "Car" then 1.05 else 1

/-- C6 counterexample: for Flight at 1400 km the claimed formula
base + sensitivity × min(distance, 2000) (region adjustment 1) gives
0.395, but the code clamps the factor to 1.5 × base = 0.3825, so the
claimed equality fails at this input. -/
theorem predict_emission_factor_clamp_counterexample :
    predict_emission_factor "Flight" (some 1400) 1 "IN" = 0.3825 ∧
    (spec_base "Flight" + spec_sens "Flight" * min (1400 : ℚ) 2000)
        * spec_region_adjust "Flight" = 0.395 ∧
    (0.3825 : ℚ) ≠ 0.395 := by
  refine ⟨by with_unfolding_all decide, by with_unfolding_all decide,
    by with_unfolding_all decide⟩

theorem roundTo4_clamp_bounds (v B : ℚ) (m : ℤ) (hB : B = (m : ℚ) / 10 ^ 4)
    (h01 : 0.01 ≤ B) :
    0.01 ≤ roundTo 4 (max 0.01 (min v B)) ∧
    roundTo 4 (max 0.01 (min v B)) ≤ B := by
  constructor
  · have h100 : (0.01 : ℚ) = ((100 : ℤ) : ℚ) / 10 ^ 4 := by norm_num
    rw [h100]
    apply le_roundTo_of_le
    rw [← h100]
    exact le_max_left _ _
  · rw [hB]
    apply roundTo_le_of_le
    rw [← hB]
    exact max_le h01 (min_le_right _ _)

set_option maxHeartbeats 1000000 in
/-- C6 as amended: for each distance-varying mode and positive
distance, the emission factor is base + sensitivity × min(d, 2000),
multiplied by the region adjustment, then clamped to
[0.01, 1.5 × base] and rounded to 4 decimal digits; in particular the
returned value always lies within [0.01, 1.5 × base]. -/
theorem predict_emission_factor_clamped (mode : String)
    (hm : mode ∈ supported_modes) (d : ℚ) (hd : 0 < d) :
    predict_emission_factor mode (some d) 1 "IN"
      = roundTo 4 (max 0.01 (min
          ((spec_base mode + spec_sens mode * min d 2000) * spec_region_adjust mode)
          (spec_base mode * 1.5))) ∧
    0.01 ≤ predict_emission_factor mode (some d) 1 "IN" ∧
    predict_emission_factor mode (some d) 1 "IN" ≤ spec_base mode * 1.5 := by
  have hnd : (d ≤ 0) = False := eq_false (not_le.mpr hd)
  fin_cases hm
  · have e1 : (("Flight" : String) = "Hotel") = False := by simp
    have e2 : (("Flight" : String) = "Train") = False := by simp
    have e3 : (("Flight" : String) = "Car") = False := by simp
    have hfe : predict_emission_factor "Flight" (some d) 1 "IN"
        = roundTo 4 (max 0.01 (min (0.255 + 0.0001 * min d 2000) (0.3825 : ℚ))) := by
      simp only [predict_emission_factor, base_emission_factors, e1, e2, e3,
        hnd, if_false]
      norm_num
    have hb := roundTo4_clamp_bounds (0.255 + 0.0001 * min d 2000) (0.3825 : ℚ)
      3825 (by norm_num) (by norm_num)
    refine ⟨?_, ?_, ?_⟩
    · rw [hfe]
      congr 1
      norm_num [spec_base, spec_sens, spec_region_adjust, base_emission_factors,
        e1, e2, e3]
    · rw [hfe]; exact hb.1
    · rw [hfe]
      refine le_trans hb.2 ?_
      norm_num [spec_base, base_emission_factors]
  · have e1 : (("Train" : String) = "Hotel") = False := by simp
    have e2 : (("Train" : String) = "Train") = True := by simp
    have hfe : predict_emission_factor "Train" (some d) 1 "IN"
        = roundTo 4 (max 0.01 (min ((0.041 + 0 * min d 2000) * 0.95) (0.0615 : ℚ))) := by
      simp only [predict_emission_factor, base_emission_factors, e1, e2,
        hnd, if_false, if_true]
      norm_num
    have hb := roundTo4_clamp_bounds ((0.041 + 0 * min d 2000) * 0.95) (0.0615 : ℚ)
      615 (by norm_num) (by norm_num)
    refine ⟨?_, ?_, ?_⟩
    · rw [hfe]
      congr 1
      norm_num [spec_base, spec_sens, spec_region_adjust, base_emission_factors,
        e1, e2]
    · rw [hfe]; exact hb.1
    · rw [hfe]
      refine le_trans hb.2 ?_
      norm_num [spec_base, base_emission_factors]
  · have e1 : (("Car" : String) = "Hotel") = False := by simp
    have e2 : (("Car" : String) = "Train") = False := by simp
    have e3 : (("Car" : String) = "Car") = True := by simp
    have hfe : predict_emission_factor "Car" (some d) 1 "IN"
        = roundTo 4 (max 0.01 (min ((0.171 + -0.00005 * min d 2000) * 1.05) (0.2565 : ℚ))) := by
      simp only [predict_emission_factor, base_emission_factors, e1, e2, e3,
        hnd, if_false, if_true]
      norm_num
    have hb := roundTo4_clamp_bounds ((0.171 + -0.00005 * min d 2000) * 1.05) (0.2565 : ℚ)
      2565 (by norm_num) (by norm_num)
    refine ⟨?_, ?_, ?_⟩
    · rw [hfe]
      congr 1
      norm_num [spec_base, spec_sens, spec_region_adjust, base_emission_factors,
        e1, e2, e3]
    · rw [hfe]; exact hb.1
    · rw [hfe]
      refine le_trans hb.2 ?_
      norm_num [spec_base, base_emission_factors]
  · have e1 : (("Bus" : String) = "Hotel") = False := by simp
    have e2 : (("Bus" : String) = "Train") = False := by simp
    have e3 : (("Bus" : String) = "Car") = False := by simp
    have hfe : predict_emission_factor "Bus" (some d) 1 "IN"
        = roundTo 4 (max 0.01 (min (0.089 + -0.00002 * min d 2000) (0.1335 : ℚ))) := by
      simp only [predict_emission_factor, base_emission_factors, e1, e2, e3,
        hnd, if_false]
      norm_num
    have hb := roundTo4_clamp_bounds (0.089 + -0.00002 * min d 2000) (0.1335 : ℚ)
      1335 (by norm_num) (by norm_num)
    refine ⟨?_, ?_, ?_⟩
    · rw [hfe]
      congr 1
      norm_num [spec_base, spec_sens, spec_region_adjust, base_emission_factors,
        e1, e2, e3]
    · rw [hfe]; exact hb.1
    · rw [hfe]
      refine le_trans hb.2 ?_
      norm_num [spec_base, base_emission_factors]

theorem predict_emission_factor_clamped_witness :
    0.01 ≤ predict_emission_factor "Flight" (some 3) 1 "IN" :=
  (predict_emission_factor_clamped "Flight" (by decide) 3 (by norm_num)).2.1

/-- C3: in every EmissionsResult produced by the aggregator, the stored
total equals the sum of the stored per-mode transport emissions plus
the stored accommodation emissions, within 0.001 kg (each of the two
roundings moves the value by at most half a thousandth). -/
theorem aggregate_total_emissions_decomposition
    (transport_emissions : List (String × ℚ)) (accommodation_emissions : ℚ)
    (num_travelers : ℤ) :
    |(aggregate_total_emissions transport_emissions accommodation_emissions
        num_travelers).total_co2e_kg
      - (((aggregate_total_emissions transport_emissions accommodation_emissions
            num_travelers).transport_emissions.map Prod.snd).sum
         + (aggregate_total_emissions transport_emissions accommodation_emissions
             num_travelers).accommodation_emissions)| ≤ 1/1000 := by
  show |roundTo 3 ((transport_emissions.map Prod.snd).sum + accommodation_emissions)
      - ((transport_emissions.map Prod.snd).sum
         + roundTo 3 accommodation_emissions)| ≤ 1/1000
  have h1 := abs_roundTo_sub 3
    ((transport_emissions.map Prod.snd).sum + accommodation_emissions)
  have h2 := abs_roundTo_sub 3 accommodation_emissions
  set S := (transport_emissions.map Prod.snd).sum
  set a := accommodation_emissions
  calc |roundTo 3 (S + a) - (S + roundTo 3 a)|
      = |(roundTo 3 (S + a) - (S + a)) + (a - roundTo 3 a)| := by congr 1; ring
    _ ≤ |roundTo 3 (S + a) - (S + a)| + |a - roundTo 3 a| := abs_add _ _
    _ ≤ 1 / (2 * 10 ^ 3) + 1 / (2 * 10 ^ 3) := by
        have h2' : |a - roundTo 3 a| ≤ 1 / (2 * 10 ^ 3) := by
          rw [abs_sub_comm]
          exact h2
        exact add_le_add h1 h2'
    _ ≤ 1/1000 := by norm_num

/-- Trip request with 101 travelers but an otherwise usable mode: the
C1 counterexample input. -/
def trip_travelers_101 : TripData :=
  { origin_city := "Delhi", destination_city := "Mumbai", outbound_date := 0,
    return_date := none, travel_modes := ["Flight"], num_travelers := 101,
    hotel_nights := 0 }

/-- C1 counterexample: travelers = 101 is one of the recoverable
failures the claim lists, and one mode (Flight) would be usable at
distance 100, yet calculate_total_emissions returns the fully
zero-valued result carrying warnings instead of computed emissions. -/
theorem calculate_total_emissions_recoverable_counterexample :
    (calculate_total_emissions trip_travelers_101 100).total_co2e_kg = 0 ∧
    (calculate_total_emissions trip_travelers_101 100).transport_emissions = [] ∧
    (calculate_total_emissions trip_travelers_101 100).calculation_warnings ≠ [] := by
  refine ⟨by with_unfolding_all decide, by with_unfolding_all decide,
    by with_unfolding_all decide⟩

/-- C1 as amended: every validation failure, not only the
no-modes-and-no-nights case, makes calculate_total_emissions return
the fully zero-valued EmissionsResult whose warnings are the validation
messages plus the failure message. -/
theorem calculate_total_emissions_validation_failure_zeroes
    (t : TripData) (distance_km : ℚ)
    (h : validation_errors t distance_km ≠ []) :
    calculate_total_emissions t distance_km =
      { total_co2e_kg := 0, transport_emissions := [],
        accommodation_emissions := 0, per_person_emissions := 0,
        calculation_warnings := validation_errors t distance_km
          ++ ["Emissions calculation failed: Invalid inputs for emissions calculation"] } := by
  simp only [calculate_total_emissions]
  rw [if_pos h]

/-- Trip request whose hotel_nights exceed the 365 limit, used to
exercise the amended C1 theorem. -/
def trip_400_nights : TripData :=
  { origin_city := "Delhi", destination_city := "Mumbai", outbound_date := 0,
    return_date := none, travel_modes := ["Train"], num_travelers := 2,
    hotel_nights := 400 }

theorem calculate_total_emissions_validation_failure_zeroes_witness :
    validation_errors trip_400_nights 50 ≠ [] ∧
    calculate_total_emissions trip_400_nights 50 =
      { total_co2e_kg := 0, transport_emissions := [],
        accommodation_emissions := 0, per_person_emissions := 0,
        calculation_warnings := validation_errors trip_400_nights 50
          ++ ["Emissions calculation failed: Invalid inputs for emissions calculation"] } :=
  ⟨by with_unfolding_all decide,
   calculate_total_emissions_validation_failure_zeroes trip_400_nights 50
     (by with_unfolding_all decide)⟩

/-- Padding element for positional access in the C2 counterexample. -/
def alt_pad : AlternativeRoute :=
  { transport_mode := "", duration_hours := 0, distance_km := 0,
    co2e_emissions_kg := 0, estimated_cost_inr := 0,
    emissions_savings_kg := 0, cost_difference_inr := 0,
    start_address := "", end_address := "" }

/-- C2 counterexample: at direct distance 0.022 km the third and
fourth entries of the returned list are Flight and Car with equal
emissions (0.005 kg), but the earlier entry (Flight, 500.16 INR) costs
more than the later one (Car, 0.18 INR): the emissions tie is broken by
candidate order, not by ascending cost. -/
theorem generate_alternatives_tie_counterexample :
    ((generate_alternatives "Delhi" "Mumbai" (11/500)
        ["Flight", "Train", "Car", "Bus"] 0).getD 2 alt_pad).transport_mode
      = "Flight" ∧
    ((generate_alternatives "Delhi" "Mumbai" (11/500)
        ["Flight", "Train", "Car", "Bus"] 0).getD 3 alt_pad).transport_mode
      = "Car" ∧
    ((generate_alternatives "Delhi" "Mumbai" (11/500)
        ["Flight", "Train", "Car", "Bus"] 0).getD 2 alt_pad).co2e_emissions_kg
      = ((generate_alternatives "Delhi" "Mumbai" (11/500)
          ["Flight", "Train", "Car", "Bus"] 0).getD 3 alt_pad).co2e_emissions_kg ∧
    ((generate_alternatives "Delhi" "Mumbai" (11/500)
        ["Flight", "Train", "Car", "Bus"] 0).getD 3 alt_pad).estimated_cost_inr
      < ((generate_alternatives "Delhi" "Mumbai" (11/500)
          ["Flight", "Train", "Car", "Bus"] 0).getD 2 alt_pad).estimated_cost_inr := by
  refine ⟨?_, ?_, ?_, ?_⟩ <;> with_unfolding_all decide

theorem pairwise_filterMap_of {α β : Type} (f : β → Option α)
    (R : α → α → Prop) (S : β → β → Prop)
    (h : ∀ a b, S a b → ∀ x, f a = some x → ∀ y, f b = some y → R x y) :
    ∀ l : List β, l.Pairwise S → (l.filterMap f).Pairwise R := by
  intro l
  induction l with
  | nil =>
    intro _
    simp
  | cons a as ih =>
    intro hp
    rcases List.pairwise_cons.mp hp with ⟨ha, has⟩
    cases hf : f a with
    | none =>
      rw [List.filterMap_cons_none hf]
      exact ih has
    | some x =>
      rw [List.filterMap_cons_some hf]
      refine List.pairwise_cons.mpr ⟨?_, ih has⟩
      intro y hy
      rcases List.mem_filterMap.mp hy with ⟨b, hb, hfb⟩
      exact h a b (ha b hb) x hf y hfb

/-- Position of a mode in the fixed candidate enumeration Flight,
Train, Car, Bus used by predict_alternative_routes. -/
def candidate_mode_index (mode : String) : ℕ :=
  if mode = "Flight" then 0
  else if mode = "Train" then 1
  else if mode = "Car" then 2
  else if mode = "Bus" then 3
  else 4

/-- C2 as amended: the alternatives list is non-decreasing in
co2e_emissions_kg, and alternatives with equal emissions appear in the
fixed candidate order Flight, Train, Car, Bus (the sort is stable on
emissions alone); cost and duration play no role in tie-breaking. -/
theorem generate_alternatives_sorted_stable (origin_city destination_city : String)
    (direct_distance baseline : ℚ) (selected_modes : List String) :
    (generate_alternatives origin_city destination_city direct_distance
        selected_modes baseline).Pairwise
      (fun a b => a.co2e_emissions_kg ≤ b.co2e_emissions_kg ∧
        (a.co2e_emissions_kg = b.co2e_emissions_kg →
          candidate_mode_index a.transport_mode
            ≤ candidate_mode_index b.transport_mode)) := by
  simp only [generate_alternatives]
  split
  · simp
  · have hmodes : (["Flight", "Train", "Car", "Bus"] : List String).Pairwise
        (fun m₁ m₂ => candidate_mode_index m₁ < candidate_mode_index m₂) := by
      decide
    have hpred : (predict_alternative_routes direct_distance none).Pairwise
        (fun rp₁ rp₂ => candidate_mode_index rp₁.mode
          < candidate_mode_index rp₂.mode) := by
      simp only [predict_alternative_routes, Option.getD]
      refine pairwise_filterMap_of _ _
        (fun m₁ m₂ => candidate_mode_index m₁ < candidate_mode_index m₂)
        ?_ _ hmodes
      intro a b hS x hx y hy
      have hxa : x.mode = a := by
        by_cases h1 : 0 < predict_distance direct_distance a
        · simp only [if_pos h1] at hx
          injection hx with h
          subst h
          rfl
        · simp [h1] at hx
      have hyb : y.mode = b := by
        by_cases h1 : 0 < predict_distance direct_distance b
        · simp only [if_pos h1] at hy
          injection hy with h
          subst h
          rfl
        · simp [h1] at hy
      rw [hxa, hyb]
      exact hS
    have halts : (List.filterMap
        (fun rp =>
          if rp.mode = "" then none
          else if rp.distance_km ≤ 0 then none
          else some
            { transport_mode := rp.mode
              duration_hours := roundTo 2 rp.duration_hours
              distance_km := roundTo 2 rp.distance_km
              co2e_emissions_kg :=
                roundTo 3 (calculate_emissions_by_mode rp.mode rp.distance_km 1)
              estimated_cost_inr := roundTo 2 (estimate_costs rp.mode rp.distance_km 1)
              emissions_savings_kg :=
                roundTo 3 (baseline - calculate_emissions_by_mode rp.mode rp.distance_km 1)
              cost_difference_inr := 0.0
              start_address := origin_city
              end_address := destination_city : AlternativeRoute })
        (predict_alternative_routes direct_distance none)).Pairwise
        (fun a b => candidate_mode_index a.transport_mode
          < candidate_mode_index b.transport_mode) := by
      refine pairwise_filterMap_of _ _
        (fun rp₁ rp₂ => candidate_mode_index rp₁.mode < candidate_mode_index rp₂.mode)
        ?_ _ hpred
      intro a b hS x hx y hy
      have hxa : x.transport_mode = a.mode := by
        by_cases h1 : a.mode = ""
        · simp [h1] at hx
        · by_cases h2 : a.distance_km ≤ 0
          · simp [h1, h2] at hx
          · simp only [if_neg h1, if_neg h2] at hx
            injection hx with h
            subst h
            rfl
      have hyb : y.transport_mode = b.mode := by
        by_cases h1 : b.mode = ""
        · simp [h1] at hy
        · by_cases h2 : b.distance_km ≤ 0
          · simp [h1, h2] at hy
          · simp only [if_neg h1, if_neg h2] at hy
            injection hy with h
            subst h
            rfl
      rw [hxa, hyb]
      exact hS
    exact sSort_pairwise (fun a : AlternativeRoute => a.co2e_emissions_kg)
      (fun a : AlternativeRoute => candidate_mode_index a.transport_mode) _ halts

/-! ## Infrastructure for the traveler-doubling property -/

/-- The num_travelers argument of predict_emission_factor is never used
in its body. -/
theorem predict_emission_factor_travelers_irrelevant (mode : String)
    (distance_km : Option ℚ) (n₁ n₂ : ℤ) (region : String) :
    predict_emission_factor mode distance_km n₁ region
      = predict_emission_factor mode distance_km n₂ region := rfl

theorem roundTo4_max_pos (x : ℚ) : (0.01 : ℚ) ≤ roundTo 4 (max 0.01 x) := by
  have h100 : (0.01 : ℚ) = ((100 : ℤ) : ℚ) / 10 ^ 4 := by norm_num
  rw [h100]
  apply le_roundTo_of_le
  rw [← h100]
  exact le_max_left _ _

/-- For each supported mode, the predicted emission factor is strictly
positive (the base factors are positive and the clamp floor is 0.01). -/
theorem predict_emission_factor_pos (mode : String)
    (hm : mode ∈ supported_modes) (d : ℚ) (n : ℤ) :
    0 < predict_emission_factor mode (some d) n "IN" := by
  fin_cases hm <;>
    (simp only [predict_emission_factor, base_emission_factors]
     split_ifs <;>
       first
         | exact lt_of_lt_of_le (by norm_num) (roundTo4_max_pos _)
         | norm_num)

/-- Facts extracted from a passing run of
CarbonCalculator.validate_calculation_inputs. -/
theorem validation_passed_facts (t : TripData) (d : ℚ)
    (h : validation_errors t d = []) :
    (∀ m ∈ t.travel_modes, m ∈ supported_modes) ∧
    (1 ≤ t.num_travelers ∧ t.num_travelers ≤ 100) ∧
    (0 ≤ t.hotel_nights ∧ t.hotel_nights ≤ 365) ∧
    ¬ (t.travel_modes = [] ∧ t.hotel_nights ≤ 0) := by
  unfold validation_errors at h
  simp only [List.append_eq_nil] at h
  obtain ⟨⟨⟨⟨⟨h1, h2⟩, h3⟩, h4⟩, h5⟩, h6⟩ := h
  refine ⟨?_, ?_, ?_, ?_⟩
  · by_cases hc : t.travel_modes.filter (fun m => ¬ m ∈ supported_modes) ≠ []
    · rw [if_pos hc] at h4
      simp at h4
    · push_neg at hc
      intro m hm
      by_contra hns
      have hmem : m ∈ t.travel_modes.filter (fun m => ¬ m ∈ supported_modes) := by
        rw [List.mem_filter]
        exact ⟨hm, by simpa using hns⟩
      rw [hc] at hmem
      simp at hmem
  · split_ifs at h5 with ha hb
    omega
  · split_ifs at h6 with ha hb
    omega
  · split_ifs at h3 with hc
    exact hc

/-- Relation between a per-mode emissions entry computed for n
travelers and the entry computed for 2n travelers: same mode, and the
value is doubled up to the two roundings involved. -/
def pairRel (p q : String × ℚ) : Prop :=
  p.1 = q.1 ∧ |q.2 - 2 * p.2| ≤ 3/2000

theorem roundTo3_double_bound (y : ℚ) :
    |roundTo 3 (2 * y) - 2 * roundTo 3 y| ≤ 3/2000 := by
  have h1 := abs_roundTo_sub 3 (2 * y)
  have h2 := abs_roundTo_sub 3 y
  have h2' : |y - roundTo 3 y| ≤ 1 / (2 * 10 ^ 3) := by
    rw [abs_sub_comm]
    exact h2
  calc |roundTo 3 (2 * y) - 2 * roundTo 3 y|
      = |(roundTo 3 (2 * y) - 2 * y) + 2 * (y - roundTo 3 y)| := by congr 1; ring
    _ ≤ |roundTo 3 (2 * y) - 2 * y| + |2 * (y - roundTo 3 y)| := abs_add _ _
    _ = |roundTo 3 (2 * y) - 2 * y| + 2 * |y - roundTo 3 y| := by
        rw [abs_mul]
        norm_num
    _ ≤ 1 / (2 * 10 ^ 3) + 2 * (1 / (2 * 10 ^ 3)) := by
        have := mul_le_mul_of_nonneg_left h2' (by norm_num : (0:ℚ) ≤ 2)
        exact add_le_add h1 this
    _ ≤ 3/2000 := by norm_num

theorem dictInsert_ne_nil (l : List (String × ℚ)) (k : String) (v : ℚ) :
    dictInsert l k v ≠ [] := by
  cases l with
  | nil => simp [dictInsert]
  | cons p rest =>
    obtain ⟨k0, v0⟩ := p
    simp only [dictInsert]
    split_ifs <;> simp

theorem dictInsert_fst (l : List (String × ℚ)) (k : String) (v : ℚ) :
    (dictInsert l k v).map Prod.fst
      = if k ∈ l.map Prod.fst then l.map Prod.fst
        else l.map Prod.fst ++ [k] := by
  induction l with
  | nil => simp [dictInsert]
  | cons p rest ih =>
    obtain ⟨k0, v0⟩ := p
    by_cases hk : k0 = k
    · subst hk
      simp [dictInsert]
    · simp only [dictInsert, if_neg hk, List.map_cons, ih]
      by_cases hmem : k ∈ rest.map Prod.fst
      · rw [if_pos hmem, if_pos (by simp [hmem])]
      · rw [if_neg hmem, if_neg (by simp [hmem, Ne.symm hk])]
        simp

theorem dictInsert_fst_nodup (l : List (String × ℚ)) (k : String) (v : ℚ)
    (h : (l.map Prod.fst).Nodup) : ((dictInsert l k v).map Prod.fst).Nodup := by
  rw [dictInsert_fst]
  split_ifs with hmem
  · exact h
  · refine List.Nodup.append h (List.nodup_singleton k) ?_
    intro a ha hb
    simp only [List.mem_singleton] at hb
    subst hb
    exact hmem ha

theorem dictInsert_fst_subset (l : List (String × ℚ)) (k : String) (v : ℚ)
    (hl : ∀ x ∈ l.map Prod.fst, x ∈ supported_modes) (hk : k ∈ supported_modes) :
    ∀ x ∈ (dictInsert l k v).map Prod.fst, x ∈ supported_modes := by
  rw [dictInsert_fst]
  split_ifs with hmem
  · exact hl
  · intro x hx
    rcases List.mem_append.mp hx with hx | hx
    · exact hl x hx
    · simp only [List.mem_singleton] at hx
      subst hx
      exact hk

theorem dictInsert_forall₂ {l₁ l₂ : List (String × ℚ)} (k : String) (v₁ v₂ : ℚ)
    (hl : List.Forall₂ pairRel l₁ l₂) (hv : |v₂ - 2 * v₁| ≤ 3/2000) :
    List.Forall₂ pairRel (dictInsert l₁ k v₁) (dictInsert l₂ k v₂) := by
  induction hl with
  | nil =>
    simp only [dictInsert]
    exact List.Forall₂.cons ⟨rfl, hv⟩ List.Forall₂.nil
  | cons hpq hrest ih =>
    rename_i p q l₁' l₂'
    obtain ⟨pk, pv⟩ := p
    obtain ⟨qk, qv⟩ := q
    obtain ⟨hfst, hsnd⟩ := hpq
    simp only at hfst
    by_cases h : pk = k
    · subst h
      simp only [dictInsert, if_pos rfl, if_pos hfst.symm]
      exact List.Forall₂.cons ⟨hfst, hv⟩ hrest
    · have h' : ¬ qk = k := by
        rw [← hfst]
        exact h
      simp only [dictInsert, if_neg h, if_neg h']
      exact List.Forall₂.cons ⟨hfst, hsnd⟩ ih

theorem forall₂_sum_bound {l₁ l₂ : List (String × ℚ)}
    (h : List.Forall₂ pairRel l₁ l₂) :
    |(l₂.map Prod.snd).sum - 2 * (l₁.map Prod.snd).sum|
      ≤ (l₁.length : ℚ) * (3/2000) := by
  induction h with
  | nil => simp
  | cons hpq hrest ih =>
    rename_i p q l₁' l₂'
    simp only [List.map_cons, List.sum_cons, List.length_cons]
    push_cast
    calc |(q.2 + (l₂'.map Prod.snd).sum) - 2 * (p.2 + (l₁'.map Prod.snd).sum)|
        = |(q.2 - 2 * p.2)
            + ((l₂'.map Prod.snd).sum - 2 * (l₁'.map Prod.snd).sum)| := by
          congr 1
          ring
      _ ≤ |q.2 - 2 * p.2|
            + |(l₂'.map Prod.snd).sum - 2 * (l₁'.map Prod.snd).sum| := abs_add _ _
      _ ≤ 3/2000 + (l₁'.length : ℚ) * (3/2000) := add_le_add hpq.2 ih
      _ = ((l₁'.length : ℚ) + 1) * (3/2000) := by ring

theorem forall₂_ne_nil {l₁ l₂ : List (String × ℚ)}
    (h : List.Forall₂ pairRel l₁ l₂) (hne : l₁ ≠ []) : l₂ ≠ [] := by
  cases h with
  | nil => exact absurd rfl hne
  | cons _ _ => simp

/-- Running the transport loop for n and for 2n travelers over the same
supported modes: no error message is produced, the two dictionaries
have pairRel-related entries, and the keys of the first stay distinct
and within the supported set. -/
theorem transport_fold_rel (d : ℚ) (n : ℤ) :
    ∀ (modes : List String), (∀ m ∈ modes, m ∈ supported_modes) →
    ∀ (acc₁ acc₂ : List (String × ℚ)) (e₁ e₂ : List String),
      List.Forall₂ pairRel acc₁ acc₂ →
      (acc₁.map Prod.fst).Nodup →
      (∀ k ∈ acc₁.map Prod.fst, k ∈ supported_modes) →
      (modes.foldl (transport_step d n) (acc₁, e₁)).2 = e₁ ∧
      (modes.foldl (transport_step d (2 * n)) (acc₂, e₂)).2 = e₂ ∧
      List.Forall₂ pairRel (modes.foldl (transport_step d n) (acc₁, e₁)).1
        (modes.foldl (transport_step d (2 * n)) (acc₂, e₂)).1 ∧
      ((modes.foldl (transport_step d n) (acc₁, e₁)).1.map Prod.fst).Nodup ∧
      (∀ k ∈ (modes.foldl (transport_step d n) (acc₁, e₁)).1.map Prod.fst,
        k ∈ supported_modes) ∧
      ((acc₁ ≠ [] ∨ modes ≠ []) →
        (modes.foldl (transport_step d n) (acc₁, e₁)).1 ≠ []) := by
  intro modes
  induction modes with
  | nil =>
    intro _ acc₁ acc₂ e₁ e₂ hrel hnd hsub
    refine ⟨rfl, rfl, hrel, hnd, hsub, ?_⟩
    intro hne
    rcases hne with hne | hne
    · exact hne
    · exact absurd rfl hne
  | cons m ms ih =>
    intro hall acc₁ acc₂ e₁ e₂ hrel hnd hsub
    have hm : m ∈ supported_modes := hall m (List.mem_cons_self m ms)
    have hms : ∀ x ∈ ms, x ∈ supported_modes :=
      fun x hx => hall x (List.mem_cons_of_mem m hx)
    have hfac := predict_emission_factor_pos m hm d n
    have hfac2 := predict_emission_factor_pos m hm d (2 * n)
    have hstep1 : transport_step d n (acc₁, e₁) m
        = (dictInsert acc₁ m
            (roundTo 3 (d * predict_emission_factor m (some d) n "IN" * n)), e₁) := by
      simp only [transport_step, if_pos hfac]
    have hstep2 : transport_step d (2 * n) (acc₂, e₂) m
        = (dictInsert acc₂ m
            (roundTo 3 (d * predict_emission_factor m (some d) (2 * n) "IN"
              * (2 * n))), e₂) := by
      simp only [transport_step, if_pos hfac2]
      push_cast
      rfl
    have hv : |roundTo 3 (d * predict_emission_factor m (some d) (2 * n) "IN" * (2 * n))
        - 2 * roundTo 3 (d * predict_emission_factor m (some d) n "IN" * n)| ≤ 3/2000 := by
      rw [predict_emission_factor_travelers_irrelevant m (some d) (2 * n) n "IN"]
      have harg : d * predict_emission_factor m (some d) n "IN" * (2 * (n : ℚ))
          = 2 * (d * predict_emission_factor m (some d) n "IN" * (n : ℚ)) := by
        ring
      rw [harg]
      exact roundTo3_double_bound _
    have hout := ih hms
      (dictInsert acc₁ m (roundTo 3 (d * predict_emission_factor m (some d) n "IN" * n)))
      (dictInsert acc₂ m (roundTo 3 (d * predict_emission_factor m (some d) (2 * n) "IN" * (2 * n))))
      e₁ e₂
      (dictInsert_forall₂ m _ _ hrel hv)
      (dictInsert_fst_nodup acc₁ m _ hnd)
      (dictInsert_fst_subset acc₁ m _ hsub hm)
    rw [List.foldl_cons, List.foldl_cons, hstep1, hstep2]
    refine ⟨hout.1, hout.2.1, hout.2.2.1, hout.2.2.2.1, hout.2.2.2.2.1, ?_⟩
    intro _
    exact hout.2.2.2.2.2 (Or.inl (dictInsert_ne_nil acc₁ m _))

/-- Accommodation emissions for a trip that passed validation: no error
message, and the value is the exact integer 30 × nights × travelers
(0 when there are no nights). -/
theorem calculate_accommodation_valid (t : TripData)
    (htr : 1 ≤ t.num_travelers) (hn : t.hotel_nights ≤ 365) :
    calculate_accommodation_emissions t
      = (if t.hotel_nights ≤ 0 then 0
         else ((30 * t.hotel_nights * t.num_travelers : ℤ) : ℚ), []) := by
  by_cases h0 : t.hotel_nights ≤ 0
  · simp only [calculate_accommodation_emissions, if_pos h0]
  · have htr' : ¬ t.num_travelers ≤ 0 := by omega
    have hn' : ¬ 365 < t.hotel_nights := by omega
    have hnights1 : (1 : ℚ) ≤ (t.hotel_nights : ℚ) := by
      have : (1 : ℤ) ≤ t.hotel_nights := by omega
      exact_mod_cast this
    have htrq : (1 : ℚ) ≤ (t.num_travelers : ℚ) := by exact_mod_cast htr
    have hmul : hotel_multiplier "standard" = 1 := by
      have e1 : (("standard" : String) = "budget") = False := by simp
      have e2 : (("standard" : String) = "standard") = True := by simp
      simp only [hotel_multiplier, e1, e2, if_false, if_true]
      norm_num
    have hval : predict_accommodation_emissions t.hotel_nights t.num_travelers "standard"
        = ((30 * t.hotel_nights * t.num_travelers : ℤ) : ℚ) := by
      simp only [predict_accommodation_emissions, hmul]
      push_cast
      ring
    have hpos' : (0 : ℚ) < ((30 * t.hotel_nights * t.num_travelers : ℤ) : ℚ) := by
      push_cast
      nlinarith
    simp only [calculate_accommodation_emissions, if_neg h0, if_neg htr', if_neg hn',
      hval, if_pos hpos', roundTo_intCast]

/-- calculate_transport_emissions on validated inputs is exactly the
per-mode loop. -/
theorem calculate_transport_emissions_valid (t : TripData) (d : ℚ)
    (h : validation_errors t d = [])
    (hloop2 : (transport_emissions_loop t d).2 = []) :
    calculate_transport_emissions t d = transport_emissions_loop t d := by
  have hvi : validate_calculation_inputs t d = true := by
    simp [validate_calculation_inputs, h]
  simp only [calculate_transport_emissions]
  rw [if_neg (by simp [hvi]), if_neg (by simp [hloop2])]

/-- calculate_total_emissions on validated inputs with something to
report takes the aggregation path. -/
theorem calculate_total_emissions_valid (t : TripData) (d : ℚ)
    (h : validation_errors t d = [])
    (hne : ¬ ((calculate_transport_emissions t d).1 = []
      ∧ (calculate_accommodation_emissions t).1 = 0)) :
    calculate_total_emissions t d
      = { aggregate_total_emissions (calculate_transport_emissions t d).1
            (calculate_accommodation_emissions t).1 t.num_travelers with
          calculation_warnings := (calculate_transport_emissions t d).2
            ++ (calculate_accommodation_emissions t).2 } := by
  simp only [calculate_total_emissions]
  rw [if_neg (by simp [h]), if_neg hne]

theorem roundTo3_total_double_bound (S₁ S₂ a₁ : ℚ)
    (hS : |S₂ - 2 * S₁| ≤ 3/500) :
    |roundTo 3 (S₂ + 2 * a₁) - 2 * roundTo 3 (S₁ + a₁)| ≤ 1/100 := by
  have h1 := abs_roundTo_sub 3 (S₂ + 2 * a₁)
  have h2 := abs_roundTo_sub 3 (S₁ + a₁)
  have h2' : |(S₁ + a₁) - roundTo 3 (S₁ + a₁)| ≤ 1 / (2 * 10 ^ 3) := by
    rw [abs_sub_comm]
    exact h2
  calc |roundTo 3 (S₂ + 2 * a₁) - 2 * roundTo 3 (S₁ + a₁)|
      = |((roundTo 3 (S₂ + 2 * a₁) - (S₂ + 2 * a₁)) + (S₂ - 2 * S₁))
          + 2 * ((S₁ + a₁) - roundTo 3 (S₁ + a₁))| := by congr 1; ring
    _ ≤ |(roundTo 3 (S₂ + 2 * a₁) - (S₂ + 2 * a₁)) + (S₂ - 2 * S₁)|
          + |2 * ((S₁ + a₁) - roundTo 3 (S₁ + a₁))| := abs_add _ _
    _ ≤ (|roundTo 3 (S₂ + 2 * a₁) - (S₂ + 2 * a₁)| + |S₂ - 2 * S₁|)
          + 2 * |(S₁ + a₁) - roundTo 3 (S₁ + a₁)| := by
        refine add_le_add (abs_add _ _) ?_
        rw [abs_mul]
        norm_num
    _ ≤ (1 / (2 * 10 ^ 3) + 3/500) + 2 * (1 / (2 * 10 ^ 3)) := by
        refine add_le_add (add_le_add h1 hS) ?_
        have := mul_le_mul_of_nonneg_left h2' (by norm_num : (0:ℚ) ≤ 2)
        exact this
    _ ≤ 1/100 := by norm_num

/-- Trip request with 60 travelers, valid on its own but whose doubling
exceeds the traveler limit: the C4 counterexample input. -/
def trip_travelers_60 : TripData :=
  { origin_city := "Delhi", destination_city := "Mumbai", outbound_date := 0,
    return_date := none, travel_modes := ["Flight"], num_travelers := 60,
    hotel_nights := 0 }

/-- C4 counterexample: the trip with 60 travelers is valid and yields
1590 kg, but doubling travelers to 120 fails validation (limit 100) and
yields the zero-valued result, not 3180 kg. -/
theorem calculate_total_emissions_doubling_counterexample :
    validate_calculation_inputs trip_travelers_60 100 = true ∧
    (calculate_total_emissions trip_travelers_60 100).total_co2e_kg = 1590 ∧
    (calculate_total_emissions
      { trip_travelers_60 with
        num_travelers := 2 * trip_travelers_60.num_travelers } 100).total_co2e_kg
      = 0 := by
  refine ⟨?_, ?_, ?_⟩ <;> with_unfolding_all decide

/-- C4 as amended: when both the trip and the traveler-doubled trip
pass validation, the total emissions double up to 0.01 kg (the roundings
of up to four per-mode entries and of the total account for the
tolerance; the accommodation part doubles exactly). -/
theorem calculate_total_emissions_doubling (t : TripData) (d : ℚ)
    (h1 : validate_calculation_inputs t d = true)
    (h2 : validate_calculation_inputs
      { t with num_travelers := 2 * t.num_travelers } d = true) :
    |(calculate_total_emissions
        { t with num_travelers := 2 * t.num_travelers } d).total_co2e_kg
      - 2 * (calculate_total_emissions t d).total_co2e_kg| ≤ 1/100 := by
  set t2 : TripData := { t with num_travelers := 2 * t.num_travelers } with ht2
  have hn2 : t2.hotel_nights = t.hotel_nights := rfl
  have htrav2 : t2.num_travelers = 2 * t.num_travelers := rfl
  have hmodes2 : t2.travel_modes = t.travel_modes := rfl
  have hv1 : validation_errors t d = [] := by
    simpa [validate_calculation_inputs] using h1
  have hv2 : validation_errors t2 d = [] := by
    simpa [validate_calculation_inputs] using h2
  obtain ⟨hmodes, ⟨htr1, _⟩, ⟨_, hn365⟩, hsome⟩ := validation_passed_facts t d hv1
  have hfold := transport_fold_rel d t.num_travelers t.travel_modes hmodes
    [] [] [] [] List.Forall₂.nil (by simp) (by simp)
  obtain ⟨hE1, hE2, hF, hND, hSUB, hNE⟩ := hfold
  have hloopdef1 : transport_emissions_loop t d
      = t.travel_modes.foldl (transport_step d t.num_travelers) ([], []) := rfl
  have hloopdef2 : transport_emissions_loop t2 d
      = t.travel_modes.foldl (transport_step d (2 * t.num_travelers)) ([], []) := rfl
  have hTE1 : (transport_emissions_loop t d).2 = [] := by
    rw [hloopdef1]
    exact hE1
  have hTE2 : (transport_emissions_loop t2 d).2 = [] := by
    rw [hloopdef2]
    exact hE2
  have hct1 : calculate_transport_emissions t d = transport_emissions_loop t d :=
    calculate_transport_emissions_valid t d hv1 hTE1
  have hct2 : calculate_transport_emissions t2 d = transport_emissions_loop t2 d :=
    calculate_transport_emissions_valid t2 d hv2 hTE2
  have hacc1 := calculate_accommodation_valid t htr1 hn365
  have hacc2 := calculate_accommodation_valid t2 (by rw [htrav2]; omega)
    (by rw [hn2]; exact hn365)
  have ha2 : (calculate_accommodation_emissions t2).1
      = 2 * (calculate_accommodation_emissions t).1 := by
    rw [hacc1, hacc2, hn2, htrav2]
    by_cases h0 : t.hotel_nights ≤ 0
    · simp [h0]
    · simp only [if_neg h0]
      push_cast
      ring
  -- the accommodation value is nonzero whenever there are nights
  have haccval : (calculate_accommodation_emissions t).1
      = if t.hotel_nights ≤ 0 then 0
        else ((30 * t.hotel_nights * t.num_travelers : ℤ) : ℚ) := by
    rw [hacc1]
  -- the aggregation path is taken on both sides
  have hne1 : ¬ ((calculate_transport_emissions t d).1 = []
      ∧ (calculate_accommodation_emissions t).1 = 0) := by
    intro hcon
    obtain ⟨hcA, hcB⟩ := hcon
    rcases List.eq_nil_or_concat t.travel_modes with hm0 | hcat
    · have hn1 : ¬ t.hotel_nights ≤ 0 := fun hle => hsome ⟨hm0, hle⟩
      rw [haccval, if_neg hn1] at hcB
      have hzero : (30 * t.hotel_nights * t.num_travelers : ℤ) = 0 := by
        exact_mod_cast hcB
      nlinarith [htr1, not_le.mp hn1]
    · have hm0 : t.travel_modes ≠ [] := by
        obtain ⟨l, a, hcat'⟩ := hcat
        rw [hcat']
        simp
      have := hNE (Or.inr hm0)
      rw [hct1, hloopdef1] at hcA
      exact this hcA
  have hne2 : ¬ ((calculate_transport_emissions t2 d).1 = []
      ∧ (calculate_accommodation_emissions t2).1 = 0) := by
    intro hcon
    obtain ⟨hc1, hc2⟩ := hcon
    apply hne1
    constructor
    · rcases List.eq_nil_or_concat t.travel_modes with hm0 | hcat
      · rw [hct1, hloopdef1, hm0]
        rfl
      · exfalso
        have hm0 : t.travel_modes ≠ [] := by
          obtain ⟨l, a, hcat'⟩ := hcat
          rw [hcat']
          simp
        rw [hct2, hloopdef2] at hc1
        exact forall₂_ne_nil hF (hNE (Or.inr hm0)) hc1
    · rw [ha2] at hc2
      linarith
  have htot1 : (calculate_total_emissions t d).total_co2e_kg
      = roundTo 3 (((transport_emissions_loop t d).1.map Prod.snd).sum
          + (calculate_accommodation_emissions t).1) := by
    rw [calculate_total_emissions_valid t d hv1 hne1, hct1]
    rfl
  have htot2 : (calculate_total_emissions t2 d).total_co2e_kg
      = roundTo 3 (((transport_emissions_loop t2 d).1.map Prod.snd).sum
          + (calculate_accommodation_emissions t2).1) := by
    rw [calculate_total_emissions_valid t2 d hv2 hne2, hct2]
    rfl
  rw [htot1, htot2, ha2, hloopdef1, hloopdef2]
  -- sum bound via the pairwise relation and the key count
  have hsum := forall₂_sum_bound hF
  have hlen : ((t.travel_modes.foldl (transport_step d t.num_travelers)
      ([], [])).1.length : ℚ) ≤ 4 := by
    have hl : (t.travel_modes.foldl (transport_step d t.num_travelers)
        ([], [])).1.length
        = ((t.travel_modes.foldl (transport_step d t.num_travelers)
            ([], [])).1.map Prod.fst).length := by
      rw [List.length_map]
    have hsubset : (t.travel_modes.foldl (transport_step d t.num_travelers)
        ([], [])).1.map Prod.fst ⊆ supported_modes := fun k hk => hSUB k hk
    have hle := (hND.subperm hsubset).length_le
    have : ((t.travel_modes.foldl (transport_step d t.num_travelers)
        ([], [])).1.map Prod.fst).length ≤ 4 := by
      simpa [supported_modes] using hle
    rw [hl]
    exact_mod_cast this
  have hS : |((t.travel_modes.foldl (transport_step d (2 * t.num_travelers))
        ([], [])).1.map Prod.snd).sum
      - 2 * ((t.travel_modes.foldl (transport_step d t.num_travelers)
          ([], [])).1.map Prod.snd).sum| ≤ 3/500 := by
    refine le_trans hsum ?_
    have h32 : (0:ℚ) ≤ 3/2000 := by norm_num
    calc ((t.travel_modes.foldl (transport_step d t.num_travelers)
          ([], [])).1.length : ℚ) * (3/2000)
        ≤ 4 * (3/2000) := by
          exact mul_le_mul_of_nonneg_right hlen h32
      _ = 3/500 := by norm_num
  exact roundTo3_total_double_bound _ _ _ hS

/-- Valid base trip for exercising the traveler-doubling theorem. -/
def trip_pair_base : TripData :=
  { origin_city := "Delhi", destination_city := "Mumbai", outbound_date := 0,
    return_date := none, travel_modes := ["Train"], num_travelers := 2,
    hotel_nights := 1 }

theorem calculate_total_emissions_doubling_witness :
    |(calculate_total_emissions
        { trip_pair_base with
          num_travelers := 2 * trip_pair_base.num_travelers } 100).total_co2e_kg
      - 2 * (calculate_total_emissions trip_pair_base 100).total_co2e_kg| ≤ 1/100 :=
  calculate_total_emissions_doubling trip_pair_base 100
    (by with_unfolding_all decide) (by with_unfolding_all decide)
